import Mathlib

/-!
# MCB1700 paddle-ball game: the ball step and its collaborators

A shallow embedding of the game logic of `p4_main.c`, `point.c`, `rect.c` and `utils.c`.

Conventions of the embedding.

* `uint16_t` values are `Nat`, `int8_t`/`int16_t` values are `Int`; every store into a
  narrower C type is written as an explicit wrap (`toU16`, `toI8`, `toI16`).  Expressions are
  evaluated in `Int`, which is what C's promotion to the 32-bit `int` gives for these operand
  ranges.
* The globals of `p4_main.c` are the fields of `Game`; a function that mutates globals maps
  a `Game` to a `Game`.
* `os_sem_send` is recorded as the list of semaphores sent, in order.
* An integer division by zero, and a floating-point division by zero whose result is then
  converted to an integer, have no defined result in C: the step returns `none` there.
* Floating-point results of the ball step (`float` scale factors, `cos`, `sin`) are not
  computed by the embedding; they are supplied by a `FloatOps` record.  The theorems hold for
  all of them, except where a hypothesis on the record is stated.
* The floating-point expressions of `tsk_paddle_top` are evaluated exactly, over the
  rationals.
-/

namespace PaddleBall

/-! ## Machine integers -/

/-- The value stored when an `int` is assigned to a `uint16_t`. -/
def toU16 (i : Int) : Nat := (i % 65536).toNat

/-- The value stored when an `int` is assigned to an `int16_t` (two's-complement wrap). -/
def toI16 (i : Int) : Int := (i + 32768) % 65536 - 32768

/-- The value stored when an `int` is assigned to an `int8_t` (two's-complement wrap). -/
def toI8 (i : Int) : Int := (i + 128) % 256 - 128

/-! ## Constants of `p4_main.c` -/

/-- Constant `BORDER_WIDTH`. -/
abbrev BORDER_WIDTH : Nat := 10
/-- Constant `MAX_SCORE`. -/
abbrev MAX_SCORE : Nat := 7
/-- Constant `JOYSTICK_STEP`. -/
abbrev JOYSTICK_STEP : Nat := 11
/-- Constant `PADDLE_HEIGHT`. -/
abbrev PADDLE_HEIGHT : Nat := 10
/-- Constant `PADDLE_OFFSET`. -/
abbrev PADDLE_OFFSET : Nat := 15
/-- Constant `PADDLE_WIDTH`. -/
abbrev PADDLE_WIDTH : Nat := 52

/-! ## Geometry: `point.c`, `rect.c`, `ball.h` -/

/-- The struct `Point` of `point.h`: two `uint16_t` coordinates. -/
structure Point where
  x : Nat
  y : Nat
deriving DecidableEq, Repr

/-- The struct `Rect` of `rect.h`. -/
structure Rect where
  b_left : Point
  t_right : Point
  color : Nat
deriving DecidableEq, Repr

/-- The struct `Ball` of `ball.h`; `vx`, `vy` are `velocity[0]`, `velocity[1]`.
The bitmap pointer `b_map` plays no part in the motion and is left out. -/
structure Ball where
  center : Point
  radius : Nat
  color : Nat
  vx : Int
  vy : Int
deriving DecidableEq, Repr

/-- Function `new_point` of `point.c`. -/
def new_point (x y : Nat) : Point := { x := x, y := y }

/-- Function `shift_point` of `point.c`: `p->x += shift_x; p->y += shift_y;` on `uint16_t`
fields with `int16_t` arguments. -/
def shift_point (p : Point) (shift_x shift_y : Int) : Point :=
  { x := toU16 ((p.x : Int) + toI16 shift_x), y := toU16 ((p.y : Int) + toI16 shift_y) }

/-- Function `new_rect` of `rect.c`. -/
def new_rect (b_left t_right : Point) (color : Nat) : Rect :=
  { b_left := b_left, t_right := t_right, color := color }

/-- Modelled from the spec: `shift_ball` is declared in `ball.h` and defined in `ball.c`,
which is not among the sources.  It translates the centre by its two `int16_t` arguments,
as `shift_point` does for a point. -/
def shift_ball (b : Ball) (x_shift y_shift : Int) : Ball :=
  { b with center := shift_point b.center x_shift y_shift }

/-- Modelled from the spec: `set_ball_velocity` is declared in `ball.h` and defined in
`ball.c`, which is not among the sources.  It assigns its two `int8_t` arguments to the
velocity. -/
def set_ball_velocity (b : Ball) (x_speed y_speed : Int) : Ball :=
  { b with vx := toI8 x_speed, vy := toI8 y_speed }

/-! ## Globals and signals -/

/-- The semaphores of `p4_main.c`. -/
inductive Sem where
  | score_update_ready
  | signal_top_score
  | signal_bottom_score
  | signal_game_over
deriving DecidableEq, Repr

/-- The global variables of `p4_main.c` that the game logic reads and writes. -/
structure Game where
  main_ball : Ball
  ball_speed : Nat
  speed_index : Nat
  paddle_top : Rect
  paddle_bottom : Rect
  top_score : Nat
  bottom_score : Nat
  game_is_over : Bool
deriving DecidableEq, Repr

/-- What one call of a global-mutating function leaves behind: the globals, the semaphores it
sent (in order) and its return value. -/
structure Step where
  game : Game
  sent : List Sem
  goal_scored : Bool
deriving DecidableEq, Repr

/-! ## Floating point -/

/-- The floating-point results the game logic consumes, as integers.

* `scale_floor n d v` is the value of `floor(scale_factor * v)` after
  `scale_factor = -1.0 * n / d` has been stored in a `float` (`d ≠ 0`).
* `cos_floor s a` is `floor(ball_speed * cos(bounce_angle))` and `sin_ceil s a` is
  `ceil(ball_speed * sin(bounce_angle))` for `ball_speed = s`, where `bounce_angle` is the
  angle of `a` degrees after `bounce_angle * PI / 180.0`. -/
structure FloatOps where
  scale_floor : Int → Int → Int → Int
  cos_floor : Nat → ℚ → Int
  sin_ceil : Nat → ℚ → Int

/-- Degree 12 Taylor polynomial of the cosine. -/
def cosQ (x : ℚ) : ℚ :=
  1 - x ^ 2 / 2 + x ^ 4 / 24 - x ^ 6 / 720 + x ^ 8 / 40320 - x ^ 10 / 3628800
    + x ^ 12 / 479001600

/-- Degree 13 Taylor polynomial of the sine. -/
def sinQ (x : ℚ) : ℚ :=
  x - x ^ 3 / 6 + x ^ 5 / 120 - x ^ 7 / 5040 + x ^ 9 / 362880 - x ^ 11 / 39916800
    + x ^ 13 / 6227020800

/-- A reference instance of `FloatOps` in exact rational arithmetic: the scale factor is the
exact quotient, and `cos`, `sin` are replaced by their Taylor polynomials at
`a * 3.14159265 / 180`.  It is not the arithmetic of the C library: it serves
to evaluate the model at concrete states and as an instance with exact scale factors. -/
def ratOps : FloatOps where
  scale_floor n d v := ⌊(-1 * (n : ℚ) / (d : ℚ)) * (v : ℚ)⌋
  cos_floor s a := ⌊(s : ℚ) * cosQ (a * (314159265 / 100000000) / 180)⌋
  sin_ceil s a := ⌈(s : ℚ) * sinQ (a * (314159265 / 100000000) / 180)⌉

/-! ## `paddle_collision` -/

/-- The local `bounce_position` of `paddle_collision` after clamping: the ball's y offset from
the paddle's midpoint, stored in an `int8_t`, limited to `±floor(PADDLE_WIDTH / 2)`. -/
def bounce_position (g : Game) (paddle : Rect) : Int :=
  let bp : Int :=
    toI8 ((g.main_ball.center.y : Int) - (((paddle.b_left.y + paddle.t_right.y) / 2 : Nat) : Int))
  if bp > ((PADDLE_WIDTH / 2 : Nat) : Int) then ((PADDLE_WIDTH / 2 : Nat) : Int)
  else if bp < -1 * ((PADDLE_WIDTH / 2 : Nat) : Int) then -1 * ((PADDLE_WIDTH / 2 : Nat) : Int)
  else bp

/-- The local `bounce_angle` of `paddle_collision` in degrees, before the conversion to
radians: `(min_angle - max_angle) / (PADDLE_WIDTH / 2.0) * abs(bounce_position) + max_angle`
with `min_angle = 15`, `max_angle = 80`.  Every intermediate value is a multiple of one half
of small magnitude, so the floating-point evaluation is exact. -/
def bounce_angle_deg (bounce_pos : Int) : ℚ :=
  ((15 : ℚ) - 80) / ((PADDLE_WIDTH : ℚ) / 2) * ((bounce_pos.natAbs : Nat) : ℚ) + 80

/-- Function `paddle_collision` of `p4_main.c`: recompute the ball's velocity after a hit on
`paddle`. -/
def paddle_collision (F : FloatOps) (g : Game) (paddle : Rect) : Game :=
  let bp := bounce_position g paddle
  let a := bounce_angle_deg bp
  let vy1 : Int :=
    if bp ≤ 0 then toI8 (-1 * F.cos_floor g.ball_speed a)
    else toI8 (F.cos_floor g.ball_speed a)
  let vx1 : Int :=
    if g.main_ball.vx ≥ 0 then toI8 (-1 * F.sin_ceil g.ball_speed a)
    else toI8 (F.sin_ceil g.ball_speed a)
  { g with main_ball := { g.main_ball with vx := vx1, vy := vy1 } }

/-! ## `calc_ball_position` -/

/-- Function `calc_ball_position` of `p4_main.c`: one step of the ball.  The parameter
`move_distance` is not read by the body.

The two scale factors computed by an integer division (right wall, top-paddle crossing) are
integers below `2 ^ 24` in magnitude, as are their products with an `int8_t` velocity, so
`floor(scale_factor * v)` is the integer product.  The other two scale factors are computed in
floating point and come from `F`. -/
def calc_ball_position (F : FloatOps) (g : Game) (_move_distance : Nat) : Option Step :=
  let b := g.main_ball
  let cx : Int := b.center.x
  let cy : Int := b.center.y
  let r : Int := b.radius
  let pb := g.paddle_bottom
  let pt := g.paddle_top
  if cy + r + b.vy > 239 - (BORDER_WIDTH : Int) then
    -- Bounce off right wall
    if b.vy = 0 then none
    else
      let scale_factor : Int := Int.tdiv ((239 - (BORDER_WIDTH : Int)) - (cy + r)) b.vy
      let b1 := shift_ball b (scale_factor * b.vx) ((239 - (BORDER_WIDTH : Int)) - (cy + r))
      some ⟨{ g with main_ball := set_ball_velocity b1 b1.vx (-1 * b1.vy) }, [], false⟩
  else if cy - r + b.vy < (BORDER_WIDTH : Int) then
    -- Bounce off left wall
    if b.vy = 0 then none
    else
      let b1 := shift_ball b (F.scale_floor ((cy - r) - (BORDER_WIDTH : Int)) b.vy b.vx)
        (cy - r - (BORDER_WIDTH : Int))
      some ⟨{ g with main_ball := set_ball_velocity b1 b1.vx (-1 * b1.vy) }, [], false⟩
  else if cx - r ≤ (pb.t_right.x : Int) then
    -- Current (center - radius) is below top of bottom paddle
    if cx + b.vx ≥ (pb.t_right.x : Int) ∧ cy - r ≤ (pb.t_right.y : Int)
        ∧ cy + r ≥ (pb.b_left.y : Int) then
      let b1 := shift_ball b (r - (cx - (pb.t_right.x : Int)) + 1) 0
      some ⟨paddle_collision F { g with main_ball := b1 } pb, [], false⟩
    else if cx + b.vx > (pb.t_right.x : Int) then
      some ⟨{ g with main_ball := shift_ball b b.vx b.vy }, [], false⟩
    else
      some ⟨g, [Sem.signal_top_score], true⟩
  else if cx - r + b.vx ≤ (pb.t_right.x : Int) then
    -- Pass Top of Bottom Paddle
    if cy - r ≤ (pb.t_right.y : Int) ∧ cy + r ≥ (pb.b_left.y : Int) then
      if b.vx = 0 then none
      else
        let b1 := shift_ball b (cx - r - (pb.t_right.x : Int) + 1)
          (F.scale_floor (cx - r - (pb.t_right.x : Int)) b.vx b.vy)
        some ⟨paddle_collision F { g with main_ball := b1 } pb, [], false⟩
    else if cx - r + b.vx > (pb.t_right.x : Int) then
      some ⟨{ g with main_ball := shift_ball b b.vx b.vy }, [], false⟩
    else
      some ⟨g, [Sem.signal_top_score], true⟩
  else if cx + r ≥ (pt.b_left.x : Int) then
    -- Current (center + radius) is above bottom of top paddle
    if cx + b.vx ≤ (pt.b_left.x : Int) ∧ cy - r ≤ (pt.t_right.y : Int)
        ∧ cy + r ≥ (pt.b_left.y : Int) then
      let b1 := shift_ball b ((-1 * ((cx + r) - ((pt.b_left.x : Int) - cx))) - 1) 0
      some ⟨paddle_collision F { g with main_ball := b1 } pt, [], false⟩
    else if cx + b.vx < (pt.b_left.x : Int) then
      some ⟨{ g with main_ball := shift_ball b b.vx b.vy }, [], false⟩
    else
      some ⟨g, [Sem.signal_bottom_score], true⟩
  else if cx + r + b.vx ≥ (pt.b_left.x : Int) then
    -- Pass Bottom of Top Paddle
    if cy - r ≤ (pt.t_right.y : Int) ∧ cy + r ≥ (pt.b_left.y : Int) then
      if b.vx = 0 then none
      else
        let scale_factor : Int := Int.tdiv ((pt.b_left.x : Int) - (cx + r)) b.vx
        let b1 := shift_ball b ((pt.b_left.x : Int) - cx - r - 1) (scale_factor * b.vy)
        some ⟨paddle_collision F { g with main_ball := b1 } pt, [], false⟩
    else if cx + r + b.vx < (pb.b_left.x : Int) then
      some ⟨{ g with main_ball := shift_ball b b.vx b.vy }, [], false⟩
    else
      some ⟨g, [Sem.signal_bottom_score], true⟩
  else
    -- No collision occurs -> only move
    some ⟨{ g with main_ball := shift_ball b b.vx b.vy }, [], false⟩

/-! ## Value ranges and the branch conditions of the step -/

/-- A point whose coordinates are `uint16_t` values. -/
def Point.in_range (p : Point) : Prop := p.x < 65536 ∧ p.y < 65536

/-- A rectangle whose coordinates are `uint16_t` values. -/
def Rect.in_range (r : Rect) : Prop := r.b_left.in_range ∧ r.t_right.in_range

/-- A ball whose centre and radius are `uint16_t` values and whose velocity components are
`int8_t` values. -/
def Ball.in_range (b : Ball) : Prop :=
  b.center.in_range ∧ b.radius < 65536 ∧ (-128 ≤ b.vx ∧ b.vx ≤ 127) ∧ (-128 ≤ b.vy ∧ b.vy ≤ 127)

/-- Globals whose ball and paddles hold values of their C types. -/
def Game.in_range (g : Game) : Prop :=
  g.main_ball.in_range ∧ g.paddle_top.in_range ∧ g.paddle_bottom.in_range

instance (p : Point) : Decidable p.in_range := by unfold Point.in_range; infer_instance
instance (r : Rect) : Decidable r.in_range := by unfold Rect.in_range; infer_instance
instance (b : Ball) : Decidable b.in_range := by unfold Ball.in_range; infer_instance
instance (g : Game) : Decidable g.in_range := by unfold Game.in_range; infer_instance

/-- Condition of the right-wall branch. -/
def right_wall (g : Game) : Prop :=
  (g.main_ball.center.y : Int) + g.main_ball.radius + g.main_ball.vy > 229

/-- Condition of the left-wall branch (tested after the right wall). -/
def left_wall (g : Game) : Prop :=
  (g.main_ball.center.y : Int) - g.main_ball.radius + g.main_ball.vy < 10

/-- Condition of the bottom-paddle overlap branch: the ball's lower edge is at or below the
top of the bottom paddle. -/
def bottom_overlap (g : Game) : Prop :=
  (g.main_ball.center.x : Int) - g.main_ball.radius ≤ g.paddle_bottom.t_right.x

/-- Condition of the bottom-paddle crossing branch: the full move takes the lower edge to or
below the top of the bottom paddle. -/
def bottom_crossing (g : Game) : Prop :=
  (g.main_ball.center.x : Int) - g.main_ball.radius + g.main_ball.vx ≤ g.paddle_bottom.t_right.x

/-- Condition of the top-paddle overlap branch. -/
def top_overlap (g : Game) : Prop :=
  (g.main_ball.center.x : Int) + g.main_ball.radius ≥ g.paddle_top.b_left.x

/-- Condition of the top-paddle crossing branch. -/
def top_crossing (g : Game) : Prop :=
  (g.main_ball.center.x : Int) + g.main_ball.radius + g.main_ball.vx ≥ g.paddle_top.b_left.x

/-- The ball lies between the two borders: `10 ≤ cy - r` and `cy + r ≤ 229`. -/
def inside_walls (g : Game) : Prop :=
  10 ≤ (g.main_ball.center.y : Int) - g.main_ball.radius
    ∧ (g.main_ball.center.y : Int) + g.main_ball.radius ≤ 229

/-- The ball's y-range meets the y-range of `paddle` (closed intervals). -/
def meets_y (g : Game) (paddle : Rect) : Prop :=
  (g.main_ball.center.y : Int) - g.main_ball.radius ≤ paddle.t_right.y
    ∧ (g.main_ball.center.y : Int) + g.main_ball.radius ≥ paddle.b_left.y

instance (g : Game) : Decidable (right_wall g) := by unfold right_wall; infer_instance
instance (g : Game) : Decidable (left_wall g) := by unfold left_wall; infer_instance
instance (g : Game) : Decidable (bottom_overlap g) := by unfold bottom_overlap; infer_instance
instance (g : Game) : Decidable (bottom_crossing g) := by unfold bottom_crossing; infer_instance
instance (g : Game) : Decidable (top_overlap g) := by unfold top_overlap; infer_instance
instance (g : Game) : Decidable (top_crossing g) := by unfold top_crossing; infer_instance
instance (g : Game) : Decidable (inside_walls g) := by unfold inside_walls; infer_instance
instance (g : Game) (p : Rect) : Decidable (meets_y g p) := by unfold meets_y; infer_instance

/-- The globals after `init_objects`, with the ball at the centre moving with
`DEFAULT_DIRECTION` as `tsk_ball` sets it, radius `r`, and speed `SPEED_ARRAY[0]`. -/
def init_game (r : Nat) : Game :=
  { main_ball := { center := new_point 159 119, radius := r, color := 0, vx := 4, vy := 3 }
    ball_speed := 7
    speed_index := 0
    paddle_top := new_rect (new_point (319 - PADDLE_OFFSET - PADDLE_HEIGHT) 93)
      (new_point (319 - PADDLE_OFFSET) (93 + PADDLE_WIDTH)) 0
    paddle_bottom := new_rect (new_point PADDLE_OFFSET 93)
      (new_point (PADDLE_OFFSET + PADDLE_HEIGHT) (93 + PADDLE_WIDTH)) 0
    top_score := 0
    bottom_score := 0
    game_is_over := false }

/-! ## Outcomes of a step -/

/-- The step performed a paddle bounce: no signal, no goal, and the globals are those that
`paddle_collision` against one of the two paddles leaves when applied to the ball moved to
its position after the step. -/
def is_bounce (F : FloatOps) (g : Game) (out : Step) : Prop :=
  out.sent = [] ∧ out.goal_scored = false
    ∧ (out.game = paddle_collision F { g with main_ball :=
          { g.main_ball with center := out.game.main_ball.center } } g.paddle_bottom
      ∨ out.game = paddle_collision F { g with main_ball :=
          { g.main_ball with center := out.game.main_ball.center } } g.paddle_top)

/-- The step reported a goal: it returned `true`, sent one of the two goal signals and left
the globals as they were. -/
def is_goal (g : Game) (out : Step) : Prop :=
  out.goal_scored = true ∧ out.game = g
    ∧ (out.sent = [Sem.signal_top_score] ∨ out.sent = [Sem.signal_bottom_score])

/-- The centre after the step is the centre translated by the full velocity. -/
def is_full_move (g : Game) (out : Step) : Prop :=
  out.game.main_ball.center = (shift_ball g.main_ball g.main_ball.vx g.main_ball.vy).center

instance (g : Game) (out : Step) : Decidable (is_goal g out) := by
  unfold is_goal; infer_instance
instance (g : Game) (out : Step) : Decidable (is_full_move g out) := by
  unfold is_full_move; infer_instance

/-! ## Concrete states -/

/-- The initial globals with the ball replaced by one of the given centre, radius and
velocity. -/
def with_ball (cx cy r : Nat) (vx vy : Int) : Game :=
  { init_game r with
    main_ball := { center := new_point cx cy, radius := r, color := 0, vx := vx, vy := vy } }

/-- A ball two pixels from the right border moving right. -/
def g_right : Game := with_ball 100 222 5 4 3

/-- A ball five pixels from the left border moving left by seven. -/
def g_left : Game := with_ball 100 20 5 3 (-7)

/-- A ball ten pixels above the bottom paddle, in front of it, moving down by fifteen. -/
def g_cross : Game := with_ball 40 119 5 (-15) 3

/-- A ball ten pixels above the bottom paddle's plane and beside the paddle in y, moving down
by twenty. -/
def g_beside : Game := with_ball 40 20 5 (-20) 3

/-- A ball ten pixels above the bottom paddle's plane and to the right of the paddle in y,
moving down by twenty. -/
def g_beside_right : Game := with_ball 40 200 5 (-20) 3

/-- A ball whose upper edge is one pixel past the bottom of the top paddle, in front of it. -/
def g_top : Game := with_ball 290 119 5 3 3

/-- A ball four pixels below the top paddle's plane, in front of it, moving up by seven. -/
def g_top_cross : Game := with_ball 285 119 5 7 3

/-- A ball whose upper edge is one pixel past the bottom of the top paddle, beside the paddle
in y, moving up by five. -/
def g_top_beside : Game := with_ball 290 20 5 5 3

/-- A ball of radius 71 whose lower edge touches the bottom paddle's plane and whose upper
edge reaches the top paddle's plane after one full move; the bottom paddle stands against the
left border, beside the ball. -/
def g_wide : Game :=
  { with_ball 96 158 71 127 0 with
    paddle_bottom := new_rect (new_point 15 10) (new_point 25 62) 0 }

/-! ## Rectangles: `rect.c` -/

/-- Function `point_is_equal` of `point.c`. -/
def point_is_equal (a b : Point) : Bool := a.x == b.x && a.y == b.y

/-- Function `rect_is_pos_equal` of `rect.c`. -/
def rect_is_pos_equal (a b : Rect) : Bool :=
  point_is_equal a.b_left b.b_left && point_is_equal a.t_right b.t_right

/-- Function `rect_set_points` of `rect.c`. -/
def rect_set_points (r : Rect) (b_left t_right : Point) : Rect :=
  { r with b_left := b_left, t_right := t_right }

/-- Function `subtract_rect_y` of `rect.c`. -/
def subtract_rect_y (old next : Rect) (clear_color : Nat) : Rect :=
  let non_overlap : Rect := { old with color := clear_color }
  if old.t_right.y > next.b_left.y ∧ old.b_left.y < next.b_left.y then
    -- New to right of old, overlapping
    let top_right := new_point old.t_right.x next.b_left.y
    new_rect old.b_left top_right clear_color
  else if next.t_right.y > old.b_left.y ∧ old.b_left.y > next.b_left.y then
    -- New to left of old, overlapping
    let bottom_left := new_point old.b_left.x next.t_right.y
    new_rect bottom_left old.t_right clear_color
  else non_overlap

/-- Function `shift_rect_y` of `rect.c`. -/
def shift_rect_y (r : Rect) (shift_y : Int) : Rect :=
  { r with b_left := shift_point r.b_left 0 shift_y, t_right := shift_point r.t_right 0 shift_y }

/-- Function `draw_rect` of `rect.c`: the pixels `(i, j)` handed to `GLCD_PutPixel`, in order;
each is painted in `r.color`.  The loop counters are `uint16_t`; the list is what the loops
paint for `t_right` coordinates below 65535. -/
def draw_rect (r : Rect) : List (Nat × Nat) :=
  (List.range' r.b_left.x (r.t_right.x + 1 - r.b_left.x)).flatMap fun i =>
    (List.range' r.b_left.y (r.t_right.y + 1 - r.b_left.y)).map fun j => (i, j)

/-- The invariant of a rectangle in the data model: `b_left` is not beyond `t_right` in either
coordinate. -/
def Rect.valid (r : Rect) : Prop := r.b_left.x ≤ r.t_right.x ∧ r.b_left.y ≤ r.t_right.y

instance (r : Rect) : Decidable r.valid := by unfold Rect.valid; infer_instance

/-! ## The bottom paddle: `tsk_paddle_bottom` -/

/-- The paddle update of one loop iteration of `tsk_paddle_bottom` for the joystick code
`pos`. -/
def tsk_paddle_bottom_move (paddle_bottom : Rect) (pos : Nat) : Rect :=
  let right_lim : Nat := 240 - BORDER_WIDTH - JOYSTICK_STEP
  let left_lim : Nat := BORDER_WIDTH - 1 + JOYSTICK_STEP
  if pos = 32 ∨ pos = 33 then
    -- move right
    if paddle_bottom.t_right.y < right_lim then
      shift_rect_y paddle_bottom (JOYSTICK_STEP : Int)
    else if paddle_bottom.t_right.y < (240 - BORDER_WIDTH) - 1 then
      shift_rect_y paddle_bottom
        (((240 : Int) - (BORDER_WIDTH : Int) - 1) - (paddle_bottom.t_right.y : Int))
    else paddle_bottom
  else if pos = 8 ∨ pos = 9 then
    -- move left
    if paddle_bottom.b_left.y > left_lim then
      shift_rect_y paddle_bottom (-1 * (JOYSTICK_STEP : Int))
    else if paddle_bottom.b_left.y > BORDER_WIDTH then
      shift_rect_y paddle_bottom ((BORDER_WIDTH : Int) - (paddle_bottom.b_left.y : Int))
    else paddle_bottom
  else paddle_bottom

/-- The bottom paddle as `init_objects` builds it: `center_y` is
`((BORDER_WIDTH - 1) + (240 - BORDER_WIDTH)) / 2` and `paddle_left_y` is
`center_y - PADDLE_WIDTH / 2`. -/
def init_paddle_bottom : Rect :=
  let center_y : Nat := ((BORDER_WIDTH - 1) + (240 - BORDER_WIDTH)) / 2
  let paddle_left_y : Nat := center_y - (PADDLE_WIDTH / 2)
  new_rect (new_point PADDLE_OFFSET paddle_left_y)
    (new_point (PADDLE_OFFSET + PADDLE_HEIGHT) (paddle_left_y + PADDLE_WIDTH)) 0

/-- The bottom paddle lies between the borders and has its full width. -/
def paddle_between_borders (p : Rect) : Prop :=
  10 ≤ p.b_left.y ∧ p.t_right.y ≤ 229 ∧ (p.t_right.y : Int) - p.b_left.y = PADDLE_WIDTH

instance (p : Rect) : Decidable (paddle_between_borders p) := by
  unfold paddle_between_borders; infer_instance

/-! ## The top paddle: `tsk_paddle_top`

The mapping from the potentiometer reading to a pixel row and the hysteresis test are
computed by the source in floating point; here they are evaluated exactly, over the
rationals. -/

/-- Local `b_left_range` of `tsk_paddle_top`. -/
abbrev b_left_range : Nat := (239 - BORDER_WIDTH - PADDLE_WIDTH) - BORDER_WIDTH
/-- Local `pot_min` of `tsk_paddle_top`. -/
abbrev pot_min : Nat := 100
/-- Local `pot_max` of `tsk_paddle_top`. -/
abbrev pot_max : Nat := 4000
/-- Local `pot_range` of `tsk_paddle_top`. -/
abbrev pot_range : Nat := pot_max - pot_min
/-- Local `hysteresis_size` of `tsk_paddle_top`. -/
abbrev hysteresis_size : Nat := 10

/-- Local `step_size` of `tsk_paddle_top`: the integer quotient `pot_range / b_left_range`
stored in a `float`. -/
def step_size : ℚ := ((pot_range / b_left_range : Nat) : ℚ)

/-- The row computed from a potentiometer value in `tsk_paddle_top`:
`(uint16_t)ceil((-1.0*b_left_range/pot_range)*pot_val + BORDER_WIDTH
+ (1.0*pot_max*b_left_range/pot_range))`. -/
def pot_to_row (pot_val : Nat) : Nat :=
  toU16 ⌈(-1 * (b_left_range : ℚ) / (pot_range : ℚ)) * (pot_val : ℚ) + (BORDER_WIDTH : ℚ)
    + (1 * (pot_max : ℚ) * (b_left_range : ℚ) / (pot_range : ℚ))⌉

/-- Local `step_edge` of `tsk_paddle_top`; the middle term is an integer quotient. -/
def step_edge (bottom_left_y_old : Nat) : ℚ :=
  (-1 * (pot_range : ℚ) * (bottom_left_y_old : ℚ) / (b_left_range : ℚ))
    + ((BORDER_WIDTH * pot_range / b_left_range : Nat) : ℚ) + (pot_max : ℚ)

/-- One loop iteration of `tsk_paddle_top` with the game running: from `bottom_left_y_old` and
the potentiometer reading to the new `bottom_left_y`, which becomes `paddle_top.b_left.y` and
the next `bottom_left_y_old`. -/
def tsk_paddle_top_row (bottom_left_y_old : Nat) (reading : Nat) : Nat :=
  let pot_val : Nat :=
    if reading > pot_max then pot_max else if reading < pot_min then pot_min else reading
  let bottom_left_y := pot_to_row pot_val
  if ((bottom_left_y : Int) - (bottom_left_y_old : Int)).natAbs = 1 then
    if bottom_left_y_old = BORDER_WIDTH + b_left_range ∧ pot_val < pot_min + hysteresis_size then
      bottom_left_y_old
    else if ¬ (bottom_left_y_old = BORDER_WIDTH + b_left_range - 1 ∧ pot_val ≤ pot_min) then
      if (pot_val : ℚ) < ((⌈step_edge bottom_left_y_old + (hysteresis_size : ℚ)⌉ : Int) : ℚ)
          ∧ (pot_val : ℚ)
            > ((⌊step_edge bottom_left_y_old - step_size - (hysteresis_size : ℚ)⌋ : Int) : ℚ)
      then bottom_left_y_old
      else bottom_left_y
    else bottom_left_y
  else bottom_left_y

/-- The task `tsk_paddle_top` with the game running: the initial reading gives the first
`bottom_left_y_old`, then one loop iteration per reading; the value is `paddle_top.b_left.y`
after the last iteration. -/
def tsk_paddle_top_run (initial : Nat) (readings : List Nat) : Nat :=
  readings.foldl tsk_paddle_top_row (pot_to_row initial)

/-- The rectangle `tsk_paddle_top` stores with `rect_set_points` for the row
`bottom_left_y`. -/
def paddle_top_at (paddle_top : Rect) (bottom_left_y : Nat) : Rect :=
  rect_set_points paddle_top
    (new_point (319 - PADDLE_OFFSET - PADDLE_HEIGHT) bottom_left_y)
    (new_point (319 - PADDLE_OFFSET) (toU16 ((bottom_left_y : Int) + (PADDLE_WIDTH : Int))))

/-! ## More concrete states -/

/-- A ball that crosses the bottom paddle's plane with its left edge on the paddle's right
edge row. -/
def g_tangent : Game := with_ball 40 150 5 (-15) 3

/-- The bottom paddle standing against the left border. -/
def paddle_at_left : Rect := new_rect (new_point 15 10) (new_point 25 62) 0

/-- The bottom paddle after one joystick step to the right. -/
def paddle_moved_right : Rect := tsk_paddle_bottom_move init_paddle_bottom 32

/-! ## Scoring: `reset_ball`, `tsk_top_score`, `tsk_bottom_score` -/

/-- Constant `DEFAULT_DIRECTION`, as a function of the index. -/
def DEFAULT_DIRECTION : Nat → Nat
  | 0 => 4
  | _ => 3

/-- Constant `SPEED_ARRAY`, as a function of the index. -/
def SPEED_ARRAY : Nat → Nat
  | 0 => 7
  | _ => 15

/-- Modelled from the spec: `move_ball` is declared in `ball.h` and defined in `ball.c`,
which is not among the sources.  It assigns the point to the centre. -/
def move_ball (b : Ball) (p : Point) : Ball := { b with center := p }

/-- Function `reset_ball` of `p4_main.c`. -/
def reset_ball (g : Game) : Game :=
  let center_y : Nat := ((BORDER_WIDTH - 1) + (240 - BORDER_WIDTH)) / 2
  let center_x : Nat := 159
  { g with
    ball_speed := SPEED_ARRAY 0
    speed_index := 0
    main_ball := move_ball g.main_ball (new_point center_x center_y) }

/-- One iteration of the loop of `tsk_top_score`, from the wake-up on `signal_top_score`: the
globals it leaves and the semaphores it sends, in order.  `draw_borders` and `display_score`
write to the display and the LEDs only. -/
def tsk_top_score (g : Game) : Game × List Sem :=
  let g1 : Game := { g with top_score := toU16 ((g.top_score : Int) + 1) }
  let sent1 : List Sem := if g1.top_score = MAX_SCORE then [Sem.signal_game_over] else []
  let g2 := reset_ball g1
  let g3 : Game := { g2 with main_ball :=
    (set_ball_velocity g2.main_ball (DEFAULT_DIRECTION 0 : Int) (DEFAULT_DIRECTION 1 : Int)) }
  (g3, sent1 ++ [Sem.score_update_ready])

/-- One iteration of the loop of `tsk_bottom_score`, from the wake-up on
`signal_bottom_score`. -/
def tsk_bottom_score (g : Game) : Game × List Sem :=
  let g1 : Game := { g with bottom_score := toU16 ((g.bottom_score : Int) + 1) }
  let sent1 : List Sem := if g1.bottom_score = MAX_SCORE then [Sem.signal_game_over] else []
  let g2 := reset_ball g1
  let g3 : Game := { g2 with main_ball :=
    (set_ball_velocity g2.main_ball (-1 * (DEFAULT_DIRECTION 0 : Int))
      (DEFAULT_DIRECTION 1 : Int)) }
  (g3, sent1 ++ [Sem.score_update_ready])

/-! ## The score LEDs: `is_bit_on`, `display_score` -/

/-- The value stored when an `int` is converted to a `uint32_t`. -/
def toU32 (i : Nat) : Nat := i % 4294967296

/-- Function `is_bit_on` of `utils.c`: `(num & (1 << pos)) != 0`. -/
def is_bit_on (num pos : Nat) : Bool := (num &&& toU32 (1 <<< pos)) != 0

/-- Local array `left_led` of `display_score`. -/
def left_led : Nat → Nat
  | 0 => 28
  | 1 => 29
  | _ => 31

/-- Local array `right_led` of `display_score`. -/
def right_led : Nat → Nat
  | 0 => 6
  | 1 => 5
  | _ => 4

/-- The local `tracker` of `display_score` after its loop: the LED word the function then
writes to the two GPIO ports. -/
def display_score (score_left score_right : Nat) : Nat :=
  (List.range 3).foldl
    (fun tracker i =>
      let t1 := if is_bit_on score_left i then tracker ||| toU32 (1 <<< left_led i) else tracker
      if is_bit_on score_right i then t1 ||| toU32 (1 <<< right_led i) else t1)
    0

/-! ## Exact scale factors -/

/-- The floating-point scale factors taken exactly: `floor(scale_factor * v)` is the floor of
the rational product. -/
def FloatOps.scale_exact (F : FloatOps) : Prop :=
  ∀ n d v : Int, F.scale_floor n d v = ⌊(-1 * (n : ℚ) / (d : ℚ)) * (v : ℚ)⌋

/-! ## States for the scoring tasks and the division -/

/-- A game in which the bottom side has six points. -/
def g_six : Game := { init_game 5 with bottom_score := 6 }

/-- A ball whose right edge is past the right border, with `vy = 0`. -/
def g_outside : Game := with_ball 100 230 5 4 0

/-! ## Machine-integer lemmas -/

theorem toU16_cast (i : Int) (h0 : 0 ≤ i) (h1 : i < 65536) : ((toU16 i : Nat) : Int) = i := by
  unfold toU16; omega

theorem toU16_add_toI16 (a i : Int) : toU16 (a + toI16 i) = toU16 (a + i) := by
  unfold toU16 toI16; omega

theorem toI8_of_range (i : Int) (h0 : -128 ≤ i) (h1 : i ≤ 127) : toI8 i = i := by
  unfold toI8; omega

/-! ## The leaves of `calc_ball_position` -/

section leaves

variable (F : FloatOps) (g : Game) (md : Nat)

theorem calc_right_wall (h : right_wall g) (hv : g.main_ball.vy ≠ 0) :
    calc_ball_position F g md
      = some ⟨{ g with main_ball := (set_ball_velocity
          (shift_ball g.main_ball
            (Int.tdiv (229 - ((g.main_ball.center.y : Int) + g.main_ball.radius)) g.main_ball.vy
              * g.main_ball.vx)
            (229 - ((g.main_ball.center.y : Int) + g.main_ball.radius)))
          g.main_ball.vx (-1 * g.main_ball.vy)) }, [], false⟩ := by
  unfold right_wall at h
  simp only [calc_ball_position, BORDER_WIDTH, Nat.cast_ofNat]
  split_ifs <;> first | omega | simp [shift_ball]

theorem calc_left_wall (h1 : ¬ right_wall g) (h2 : left_wall g) (hv : g.main_ball.vy ≠ 0) :
    calc_ball_position F g md
      = some ⟨{ g with main_ball := (set_ball_velocity
          (shift_ball g.main_ball
            (F.scale_floor ((g.main_ball.center.y : Int) - g.main_ball.radius - 10)
              g.main_ball.vy g.main_ball.vx)
            ((g.main_ball.center.y : Int) - g.main_ball.radius - 10))
          g.main_ball.vx (-1 * g.main_ball.vy)) }, [], false⟩ := by
  unfold right_wall at h1
  unfold left_wall at h2
  simp only [calc_ball_position, BORDER_WIDTH, Nat.cast_ofNat]
  split_ifs <;> first | omega | simp [shift_ball]

theorem calc_bottom_overlap_bounce (h1 : ¬ right_wall g) (h2 : ¬ left_wall g)
    (h3 : bottom_overlap g)
    (hx : (g.main_ball.center.x : Int) + g.main_ball.vx ≥ g.paddle_bottom.t_right.x)
    (hy : meets_y g g.paddle_bottom) :
    calc_ball_position F g md
      = some ⟨paddle_collision F { g with main_ball := (shift_ball g.main_ball
          ((g.main_ball.radius : Int)
            - ((g.main_ball.center.x : Int) - g.paddle_bottom.t_right.x) + 1) 0) }
          g.paddle_bottom, [], false⟩ := by
  unfold right_wall at h1
  unfold left_wall at h2
  unfold bottom_overlap at h3
  unfold meets_y at hy
  simp only [calc_ball_position, BORDER_WIDTH, Nat.cast_ofNat]
  split_ifs <;> first | omega | rfl

theorem calc_bottom_overlap_pass (h1 : ¬ right_wall g) (h2 : ¬ left_wall g)
    (h3 : bottom_overlap g) (hy : ¬ meets_y g g.paddle_bottom)
    (hx : (g.main_ball.center.x : Int) + g.main_ball.vx > g.paddle_bottom.t_right.x) :
    calc_ball_position F g md
      = some ⟨{ g with main_ball := shift_ball g.main_ball g.main_ball.vx g.main_ball.vy },
          [], false⟩ := by
  unfold right_wall at h1
  unfold left_wall at h2
  unfold bottom_overlap at h3
  unfold meets_y at hy
  simp only [calc_ball_position, BORDER_WIDTH, Nat.cast_ofNat]
  split_ifs <;> first | omega | rfl

theorem calc_bottom_crossing_bounce (h1 : ¬ right_wall g) (h2 : ¬ left_wall g)
    (h3 : ¬ bottom_overlap g) (h4 : bottom_crossing g) (hy : meets_y g g.paddle_bottom) :
    calc_ball_position F g md
      = some ⟨paddle_collision F { g with main_ball := (shift_ball g.main_ball
          ((g.main_ball.center.x : Int) - g.main_ball.radius - g.paddle_bottom.t_right.x + 1)
          (F.scale_floor
            ((g.main_ball.center.x : Int) - g.main_ball.radius - g.paddle_bottom.t_right.x)
            g.main_ball.vx g.main_ball.vy)) }
          g.paddle_bottom, [], false⟩ := by
  unfold right_wall at h1
  unfold left_wall at h2
  unfold bottom_overlap at h3
  unfold bottom_crossing at h4
  unfold meets_y at hy
  simp only [calc_ball_position, BORDER_WIDTH, Nat.cast_ofNat]
  split_ifs <;> first | omega | rfl

theorem calc_bottom_crossing_goal (h1 : ¬ right_wall g) (h2 : ¬ left_wall g)
    (h3 : ¬ bottom_overlap g) (h4 : bottom_crossing g) (hy : ¬ meets_y g g.paddle_bottom) :
    calc_ball_position F g md = some ⟨g, [Sem.signal_top_score], true⟩ := by
  unfold right_wall at h1
  unfold left_wall at h2
  unfold bottom_overlap at h3
  unfold bottom_crossing at h4
  unfold meets_y at hy
  simp only [calc_ball_position, BORDER_WIDTH, Nat.cast_ofNat]
  split_ifs <;> first | omega | rfl

theorem calc_top_overlap_bounce (h1 : ¬ right_wall g) (h2 : ¬ left_wall g)
    (h3 : ¬ bottom_overlap g) (h4 : ¬ bottom_crossing g) (h5 : top_overlap g)
    (hx : (g.main_ball.center.x : Int) + g.main_ball.vx ≤ g.paddle_top.b_left.x)
    (hy : meets_y g g.paddle_top) :
    calc_ball_position F g md
      = some ⟨paddle_collision F { g with main_ball := (shift_ball g.main_ball
          ((-1 * (((g.main_ball.center.x : Int) + g.main_ball.radius)
            - ((g.paddle_top.b_left.x : Int) - g.main_ball.center.x))) - 1) 0) }
          g.paddle_top, [], false⟩ := by
  unfold right_wall at h1
  unfold left_wall at h2
  unfold bottom_overlap at h3
  unfold bottom_crossing at h4
  unfold top_overlap at h5
  unfold meets_y at hy
  simp only [calc_ball_position, BORDER_WIDTH, Nat.cast_ofNat]
  split_ifs <;> first | omega | rfl

theorem calc_top_crossing_bounce (h1 : ¬ right_wall g) (h2 : ¬ left_wall g)
    (h3 : ¬ bottom_overlap g) (h4 : ¬ bottom_crossing g) (h5 : ¬ top_overlap g)
    (h6 : top_crossing g) (hy : meets_y g g.paddle_top) :
    calc_ball_position F g md
      = some ⟨paddle_collision F { g with main_ball := (shift_ball g.main_ball
          ((g.paddle_top.b_left.x : Int) - g.main_ball.center.x - g.main_ball.radius - 1)
          (Int.tdiv ((g.paddle_top.b_left.x : Int)
              - ((g.main_ball.center.x : Int) + g.main_ball.radius)) g.main_ball.vx
            * g.main_ball.vy)) }
          g.paddle_top, [], false⟩ := by
  unfold right_wall at h1
  unfold left_wall at h2
  unfold bottom_overlap at h3
  unfold bottom_crossing at h4
  unfold top_overlap at h5
  unfold top_crossing at h6
  unfold meets_y at hy
  simp only [calc_ball_position, BORDER_WIDTH, Nat.cast_ofNat]
  split_ifs <;> first | omega | rfl

theorem calc_top_crossing_goal (h1 : ¬ right_wall g) (h2 : ¬ left_wall g)
    (h3 : ¬ bottom_overlap g) (h4 : ¬ bottom_crossing g) (h5 : ¬ top_overlap g)
    (h6 : top_crossing g) (hy : ¬ meets_y g g.paddle_top)
    (hp : g.paddle_bottom.b_left.x ≤ g.paddle_top.b_left.x) :
    calc_ball_position F g md = some ⟨g, [Sem.signal_bottom_score], true⟩ := by
  unfold right_wall at h1
  unfold left_wall at h2
  unfold bottom_overlap at h3
  unfold bottom_crossing at h4
  unfold top_overlap at h5
  unfold top_crossing at h6
  unfold meets_y at hy
  simp only [calc_ball_position, BORDER_WIDTH, Nat.cast_ofNat]
  split_ifs <;> first | omega | rfl

theorem calc_no_collision (h1 : ¬ right_wall g) (h2 : ¬ left_wall g) (h3 : ¬ bottom_overlap g)
    (h4 : ¬ bottom_crossing g) (h5 : ¬ top_overlap g) (h6 : ¬ top_crossing g) :
    calc_ball_position F g md
      = some ⟨{ g with main_ball := shift_ball g.main_ball g.main_ball.vx g.main_ball.vy },
          [], false⟩ := by
  unfold right_wall at h1
  unfold left_wall at h2
  unfold bottom_overlap at h3
  unfold bottom_crossing at h4
  unfold top_overlap at h5
  unfold top_crossing at h6
  simp only [calc_ball_position, BORDER_WIDTH, Nat.cast_ofNat]
  split_ifs <;> first | rfl | omega

/-- The step produces a result unless a wall branch divides by `vy = 0`. -/
theorem calc_defined (hd : g.main_ball.vy ≠ 0 ∨ (¬ right_wall g ∧ ¬ left_wall g)) :
    ∃ out, calc_ball_position F g md = some out := by
  unfold right_wall left_wall at hd
  rw [← Option.isSome_iff_exists]
  simp only [calc_ball_position, BORDER_WIDTH, Nat.cast_ofNat]
  split_ifs <;> first | rfl | omega

end leaves

/-! ## The free move -/

/-- C1. When none of the six special conditions of `calc_ball_position` holds, one call moves
the centre to exactly `(cx + vx, cy + vy)`, changes nothing else (velocity included), sends no
signal and returns `false`. -/
theorem no_collision_translates (F : FloatOps) (g : Game) (md : Nat) (hr : g.in_range)
    (h1 : ¬ right_wall g) (h2 : ¬ left_wall g) (h3 : ¬ bottom_overlap g)
    (h4 : ¬ bottom_crossing g) (h5 : ¬ top_overlap g) (h6 : ¬ top_crossing g) :
    ∃ out, calc_ball_position F g md = some out
      ∧ (out.game.main_ball.center.x : Int) = (g.main_ball.center.x : Int) + g.main_ball.vx
      ∧ (out.game.main_ball.center.y : Int) = (g.main_ball.center.y : Int) + g.main_ball.vy
      ∧ out.game.main_ball.vx = g.main_ball.vx ∧ out.game.main_ball.vy = g.main_ball.vy
      ∧ out.game = { g with main_ball :=
          { g.main_ball with center := out.game.main_ball.center } }
      ∧ out.sent = [] ∧ out.goal_scored = false := by
  refine ⟨_, calc_no_collision F g md h1 h2 h3 h4 h5 h6, ?_, ?_, rfl, rfl, rfl, rfl, rfl⟩
  · obtain ⟨-, ⟨⟨hx, -⟩, -⟩, -⟩ := hr
    unfold bottom_overlap at h3
    unfold bottom_crossing at h4
    unfold top_overlap at h5
    unfold top_crossing at h6
    simp only [shift_ball, shift_point, toU16_add_toI16]
    apply toU16_cast <;> omega
  · unfold right_wall at h1
    unfold left_wall at h2
    simp only [shift_ball, shift_point, toU16_add_toI16]
    apply toU16_cast <;> omega

/-- The hypotheses of C1 hold for the ball at the centre of the initial playfield. -/
theorem no_collision_translates_witness :
    (init_game 5).in_range ∧ ¬ right_wall (init_game 5) ∧ ¬ left_wall (init_game 5)
      ∧ ¬ bottom_overlap (init_game 5) ∧ ¬ bottom_crossing (init_game 5)
      ∧ ¬ top_overlap (init_game 5) ∧ ¬ top_crossing (init_game 5)
      ∧ ∃ out, calc_ball_position ratOps (init_game 5) 7 = some out
        ∧ (out.game.main_ball.center.x : Int) = 159 + 4
        ∧ (out.game.main_ball.center.y : Int) = 119 + 3
        ∧ out.game.main_ball.vx = 4 ∧ out.game.main_ball.vy = 3
        ∧ out.game = { init_game 5 with main_ball :=
            { (init_game 5).main_ball with center := out.game.main_ball.center } }
        ∧ out.sent = [] ∧ out.goal_scored = false :=
  ⟨by decide, by decide, by decide, by decide, by decide, by decide, by decide,
    no_collision_translates ratOps (init_game 5) 7 (by decide) (by decide) (by decide)
      (by decide) (by decide) (by decide) (by decide)⟩

/-! ## Wall bounces -/

/-- C2. Inside the walls and with `vy ≠ -128`, a step that takes the right-wall or the
left-wall branch leaves the velocity `(vx, -vy)`, sends no signal and reports no goal. -/
theorem wall_bounce_reflects (F : FloatOps) (g : Game) (md : Nat) (hr : g.in_range)
    (hin : inside_walls g) (hv : g.main_ball.vy ≠ -128) (hw : right_wall g ∨ left_wall g) :
    ∃ out, calc_ball_position F g md = some out
      ∧ out.game.main_ball.vx = g.main_ball.vx ∧ out.game.main_ball.vy = - g.main_ball.vy
      ∧ out.sent = [] ∧ out.goal_scored = false := by
  obtain ⟨⟨-, -, ⟨hx0, hx1⟩, ⟨hy0, hy1⟩⟩, -, -⟩ := hr
  have hvx : toI8 g.main_ball.vx = g.main_ball.vx := toI8_of_range _ hx0 hx1
  have hvy : toI8 (-1 * g.main_ball.vy) = - g.main_ball.vy :=
    by rw [toI8_of_range] <;> omega
  by_cases h1 : right_wall g
  · have hne : g.main_ball.vy ≠ 0 := by
      unfold right_wall at h1
      unfold inside_walls at hin
      omega
    exact ⟨_, calc_right_wall F g md h1 hne, hvx, hvy, rfl, rfl⟩
  · have h2 : left_wall g := hw.resolve_left h1
    have hne : g.main_ball.vy ≠ 0 := by
      unfold left_wall at h2
      unfold inside_walls at hin
      omega
    exact ⟨_, calc_left_wall F g md h1 h2 hne, hvx, hvy, rfl, rfl⟩

/-- The hypotheses of C2 hold for a ball two pixels from the right border. -/
theorem wall_bounce_reflects_witness :
    g_right.in_range ∧ inside_walls g_right ∧ g_right.main_ball.vy ≠ -128
      ∧ (right_wall g_right ∨ left_wall g_right)
      ∧ ∃ out, calc_ball_position ratOps g_right 7 = some out
        ∧ out.game.main_ball.vx = 4 ∧ out.game.main_ball.vy = - 3
        ∧ out.sent = [] ∧ out.goal_scored = false :=
  ⟨by decide, by decide, by decide, by decide,
    wall_bounce_reflects ratOps g_right 7 (by decide) (by decide) (by decide) (by decide)⟩

/-- C3. Inside the walls, a step that takes the right-wall branch leaves the ball's right
edge exactly on the border line: `cy' + r = 229`. -/
theorem right_wall_lands_on_border (F : FloatOps) (g : Game) (md : Nat)
    (hin : inside_walls g) (hw : right_wall g) :
    ∃ out, calc_ball_position F g md = some out
      ∧ (out.game.main_ball.center.y : Int) + out.game.main_ball.radius = 229 := by
  have hne : g.main_ball.vy ≠ 0 := by
    unfold right_wall at hw
    unfold inside_walls at hin
    omega
  refine ⟨_, calc_right_wall F g md hw hne, ?_⟩
  unfold inside_walls at hin
  simp only [set_ball_velocity, shift_ball, shift_point, toU16_add_toI16]
  rw [toU16_cast] <;> omega

/-- The hypotheses of C3 hold for a ball two pixels from the right border. -/
theorem right_wall_lands_on_border_witness :
    inside_walls g_right ∧ right_wall g_right
      ∧ ∃ out, calc_ball_position ratOps g_right 7 = some out
        ∧ (out.game.main_ball.center.y : Int) + out.game.main_ball.radius = 229 :=
  ⟨by decide, by decide, right_wall_lands_on_border ratOps g_right 7 (by decide) (by decide)⟩

/-- C4 (the code departs from the claim). For the ball of `g_left`, inside the walls with its
left edge at 15 and `vy = -7`, the step takes the left-wall branch and shifts the ball by
`cy - r - BORDER_WIDTH = +5`: the left edge ends at 20, not on the border line 10. -/
theorem left_wall_moves_away_from_border (F : FloatOps) :
    inside_walls g_left ∧ ¬ right_wall g_left ∧ left_wall g_left
      ∧ ∃ out, calc_ball_position F g_left 7 = some out
        ∧ (out.game.main_ball.center.y : Int) - out.game.main_ball.radius = 20
        ∧ out.game.main_ball.vy = 7 :=
  ⟨by decide, by decide, by decide,
    _, calc_left_wall F g_left 7 (by decide) (by decide) (by decide), by rfl, by rfl⟩

/-! ## Goals -/

/-- C5. Whenever no wall branch divides by `vy = 0`, the step returns, and it returns `true`
exactly when it sends one goal signal; it sends at most one signal; `signal_top_score` is sent
only in the bottom-paddle branches and `signal_bottom_score` only in the top-paddle branches;
the wall branches and the no-collision branch send nothing and return `false`. -/
theorem goal_iff_one_signal (F : FloatOps) (g : Game) (md : Nat)
    (hd : g.main_ball.vy ≠ 0 ∨ (¬ right_wall g ∧ ¬ left_wall g)) :
    ∃ out, calc_ball_position F g md = some out
      ∧ (out.goal_scored = true
        ↔ (out.sent = [Sem.signal_top_score] ∨ out.sent = [Sem.signal_bottom_score]))
      ∧ (out.goal_scored = false ↔ out.sent = [])
      ∧ (Sem.signal_top_score ∈ out.sent →
          ¬ right_wall g ∧ ¬ left_wall g ∧ (bottom_overlap g ∨ bottom_crossing g))
      ∧ (Sem.signal_bottom_score ∈ out.sent →
          ¬ right_wall g ∧ ¬ left_wall g ∧ ¬ bottom_overlap g ∧ ¬ bottom_crossing g
            ∧ (top_overlap g ∨ top_crossing g))
      ∧ (right_wall g ∨ left_wall g
          ∨ (¬ bottom_overlap g ∧ ¬ bottom_crossing g ∧ ¬ top_overlap g ∧ ¬ top_crossing g) →
          out.sent = [] ∧ out.goal_scored = false) := by
  obtain ⟨out, h⟩ := calc_defined F g md hd
  refine ⟨out, h, ?_⟩
  clear hd
  unfold right_wall left_wall bottom_overlap bottom_crossing top_overlap top_crossing
  simp only [calc_ball_position, BORDER_WIDTH, Nat.cast_ofNat] at h
  split_ifs at h <;>
    simp only [Option.some.injEq, reduceCtorEq] at h <;>
    subst h <;>
    simp only [List.mem_singleton, List.not_mem_nil, reduceCtorEq, false_implies, true_implies,
      List.cons.injEq, and_true, or_false, false_or, true_iff, iff_true, eq_self, or_true,
      true_or, Bool.false_eq_true, false_iff, not_false_eq_true, implies_true, true_and,
      and_self, not_true_eq_false, List.cons_ne_nil, not_or, iff_false, List.cons_ne_self] <;>
    omega

/-- The hypothesis of C5 holds for a ball that crosses the bottom paddle's plane beside the
paddle, where the step reports a goal with `signal_top_score`. -/
theorem goal_iff_one_signal_witness :
    (g_beside.main_ball.vy ≠ 0 ∨ (¬ right_wall g_beside ∧ ¬ left_wall g_beside))
      ∧ calc_ball_position ratOps g_beside 7 = some ⟨g_beside, [Sem.signal_top_score], true⟩
      ∧ ∃ out, calc_ball_position ratOps g_beside 7 = some out
        ∧ (out.goal_scored = true
          ↔ (out.sent = [Sem.signal_top_score] ∨ out.sent = [Sem.signal_bottom_score]))
        ∧ (out.goal_scored = false ↔ out.sent = [])
        ∧ (Sem.signal_top_score ∈ out.sent →
            ¬ right_wall g_beside ∧ ¬ left_wall g_beside
              ∧ (bottom_overlap g_beside ∨ bottom_crossing g_beside))
        ∧ (Sem.signal_bottom_score ∈ out.sent →
            ¬ right_wall g_beside ∧ ¬ left_wall g_beside ∧ ¬ bottom_overlap g_beside
              ∧ ¬ bottom_crossing g_beside ∧ (top_overlap g_beside ∨ top_crossing g_beside))
        ∧ (right_wall g_beside ∨ left_wall g_beside
            ∨ (¬ bottom_overlap g_beside ∧ ¬ bottom_crossing g_beside
              ∧ ¬ top_overlap g_beside ∧ ¬ top_crossing g_beside) →
            out.sent = [] ∧ out.goal_scored = false) :=
  ⟨Or.inl (by decide), by decide, goal_iff_one_signal ratOps g_beside 7 (Or.inl (by decide))⟩

/-- C6. Whenever a step reports a goal, the globals after the call are the globals before
it: the ball's centre, radius and velocity, and `top_score` and `bottom_score`, are
unchanged. -/
theorem goal_leaves_globals_unchanged (F : FloatOps) (g : Game) (md : Nat) (out : Step)
    (h : calc_ball_position F g md = some out) (hg : out.goal_scored = true) :
    out.game = g := by
  simp only [calc_ball_position, BORDER_WIDTH, Nat.cast_ofNat] at h
  split_ifs at h <;>
    simp only [Option.some.injEq, reduceCtorEq] at h <;>
    subst h <;>
    first | rfl | exact absurd hg Bool.false_ne_true

/-- The hypotheses of C6 hold for a ball that overlaps the top paddle's plane beside the
paddle: the step reports a goal and the globals are unchanged. -/
theorem goal_leaves_globals_unchanged_witness :
    calc_ball_position ratOps g_top_beside 7
        = some ⟨g_top_beside, [Sem.signal_bottom_score], true⟩
      ∧ (⟨g_top_beside, [Sem.signal_bottom_score], true⟩ : Step).game = g_top_beside :=
  ⟨by decide,
    goal_leaves_globals_unchanged ratOps g_top_beside 7
      ⟨g_top_beside, [Sem.signal_bottom_score], true⟩ (by decide) rfl⟩

/-! ## Paddle crossings -/

/-- C7 (as stated, refuted). With the paddles at their configured x positions, no wall branch,
the ball clear of the top paddle's plane and its full move reaching that plane, the step for
the ball of `g_wide` takes the bottom-paddle overlap branch and translates the ball by the
full `(vx, vy) = (127, 0)`: no bounce, no goal. -/
theorem tunnelling_counterexample :
    g_wide.in_range
      ∧ g_wide.paddle_bottom.b_left.x = 15 ∧ g_wide.paddle_bottom.t_right.x = 25
      ∧ g_wide.paddle_top.b_left.x = 294 ∧ g_wide.paddle_top.t_right.x = 304
      ∧ ¬ right_wall g_wide ∧ ¬ left_wall g_wide
      ∧ (¬ top_overlap g_wide ∧ top_crossing g_wide)
      ∧ calc_ball_position ratOps g_wide 7
          = some ⟨{ g_wide with main_ball :=
              { g_wide.main_ball with center := new_point (96 + 127) (158 + 0) } }, [], false⟩
      ∧ ¬ ∃ out, calc_ball_position ratOps g_wide 7 = some out
          ∧ (is_bounce ratOps g_wide out ∨ is_goal g_wide out) ∧ ¬ is_full_move g_wide out := by
  have hc : calc_ball_position ratOps g_wide 7
      = some ⟨{ g_wide with main_ball :=
          { g_wide.main_ball with center := new_point (96 + 127) (158 + 0) } }, [], false⟩ := by
    decide
  refine ⟨by decide, rfl, rfl, rfl, rfl, by decide, by decide, by decide, hc, ?_⟩
  rintro ⟨out, ho, -, hn⟩
  rw [hc] at ho
  simp only [Option.some.injEq] at ho
  subst ho
  exact hn (by decide)

/-- C7 (amended). With `paddle_bottom.b_left.x ≤ paddle_top.b_left.x`, no wall branch and the
ball clear of the bottom paddle's plane, if the full move takes the lower edge to or past the
bottom paddle's plane, or the ball is clear of the top paddle's plane and the full move takes
the upper edge to or past it, the step performs a paddle bounce or reports a goal, and the
centre is not the centre translated by the full velocity. -/
theorem no_tunnelling (F : FloatOps) (g : Game) (md : Nat) (hr : g.in_range)
    (hp : g.paddle_bottom.b_left.x ≤ g.paddle_top.b_left.x)
    (h1 : ¬ right_wall g) (h2 : ¬ left_wall g)
    (hc : (¬ bottom_overlap g ∧ bottom_crossing g)
      ∨ (¬ bottom_overlap g ∧ ¬ top_overlap g ∧ top_crossing g)) :
    ∃ out, calc_ball_position F g md = some out
      ∧ (is_bounce F g out ∨ is_goal g out) ∧ ¬ is_full_move g out := by
  obtain ⟨⟨⟨hcx, -⟩, -, ⟨hx0, hx1⟩, -⟩, ⟨⟨hbx, -⟩, -⟩, -⟩ := hr
  rcases hc with ⟨h3, h4⟩ | ⟨h3, h5, h6⟩
  · by_cases hy : meets_y g g.paddle_bottom
    · refine ⟨_, calc_bottom_crossing_bounce F g md h1 h2 h3 h4 hy,
        Or.inl ⟨rfl, rfl, Or.inl rfl⟩, ?_⟩
      intro hf
      have hxe := congrArg Point.x hf
      unfold bottom_overlap at h3
      unfold bottom_crossing at h4
      simp only [is_full_move, paddle_collision, shift_ball, shift_point, toU16, toI16] at hxe
      omega
    · refine ⟨_, calc_bottom_crossing_goal F g md h1 h2 h3 h4 hy,
        Or.inr ⟨rfl, rfl, Or.inl rfl⟩, ?_⟩
      intro hf
      have hxe := congrArg Point.x hf
      unfold bottom_overlap at h3
      unfold bottom_crossing at h4
      simp only [is_full_move, shift_ball, shift_point, toU16, toI16] at hxe
      omega
  · have h4 : ¬ bottom_crossing g := by
      unfold bottom_overlap at h3
      unfold top_overlap at h5
      unfold top_crossing at h6
      unfold bottom_crossing
      omega
    by_cases hy : meets_y g g.paddle_top
    · refine ⟨_, calc_top_crossing_bounce F g md h1 h2 h3 h4 h5 h6 hy,
        Or.inl ⟨rfl, rfl, Or.inr rfl⟩, ?_⟩
      intro hf
      have hxe := congrArg Point.x hf
      unfold top_overlap at h5
      unfold top_crossing at h6
      simp only [is_full_move, paddle_collision, shift_ball, shift_point, toU16, toI16] at hxe
      omega
    · refine ⟨_, calc_top_crossing_goal F g md h1 h2 h3 h4 h5 h6 hy hp,
        Or.inr ⟨rfl, rfl, Or.inr rfl⟩, ?_⟩
      intro hf
      have hxe := congrArg Point.x hf
      unfold top_overlap at h5
      unfold top_crossing at h6
      simp only [is_full_move, shift_ball, shift_point, toU16, toI16] at hxe
      omega

/-- The hypotheses of the amended C7 hold for a ball four pixels below the top paddle's plane
that moves up by seven. -/
theorem no_tunnelling_witness :
    g_top_cross.in_range
      ∧ g_top_cross.paddle_bottom.b_left.x ≤ g_top_cross.paddle_top.b_left.x
      ∧ ¬ right_wall g_top_cross ∧ ¬ left_wall g_top_cross
      ∧ (¬ bottom_overlap g_top_cross ∧ ¬ top_overlap g_top_cross ∧ top_crossing g_top_cross)
      ∧ ∃ out, calc_ball_position ratOps g_top_cross 7 = some out
        ∧ (is_bounce ratOps g_top_cross out ∨ is_goal g_top_cross out)
        ∧ ¬ is_full_move g_top_cross out :=
  ⟨by decide, by decide, by decide, by decide, by decide,
    no_tunnelling ratOps g_top_cross 7 (by decide) (by decide) (by decide) (by decide)
      (Or.inr (by decide))⟩

/-- C8 (as stated, refuted). For the ball of `g_beside`, no wall branch applies, the ball is
clear of the bottom paddle's plane, its full move crosses that plane and the paddle lies
entirely outside the ball's y-range; the step reports a goal with `signal_top_score` and does
not move the ball. -/
theorem pass_beside_counterexample :
    ¬ right_wall g_beside ∧ ¬ left_wall g_beside
      ∧ ¬ bottom_overlap g_beside ∧ bottom_crossing g_beside
      ∧ (g_beside.main_ball.center.y : Int) + g_beside.main_ball.radius
          < g_beside.paddle_bottom.b_left.y
      ∧ calc_ball_position ratOps g_beside 7
          = some ⟨g_beside, [Sem.signal_top_score], true⟩
      ∧ ¬ ∃ out, calc_ball_position ratOps g_beside 7 = some out
          ∧ is_full_move g_beside out ∧ out.goal_scored = false := by
  have hc : calc_ball_position ratOps g_beside 7
      = some ⟨g_beside, [Sem.signal_top_score], true⟩ := by decide
  refine ⟨by decide, by decide, by decide, by decide, by decide, hc, ?_⟩
  rintro ⟨out, ho, -, hn⟩
  rw [hc] at ho
  simp only [Option.some.injEq] at ho
  subst ho
  exact absurd hn (by decide)

/-- C8 (amended). When no wall branch applies, the ball is clear of the bottom paddle's
plane, its full move crosses that plane, the paddle lies entirely outside the ball's y-range
and the full move takes the ball's centre to or below the paddle's plane, the step reports a
goal for the top side: it sends `signal_top_score`, returns `true` and leaves the globals
unchanged. -/
theorem crossing_beside_paddle_is_goal (F : FloatOps) (g : Game) (md : Nat)
    (h1 : ¬ right_wall g) (h2 : ¬ left_wall g)
    (h3 : ¬ bottom_overlap g) (h4 : bottom_crossing g)
    (hy : (g.main_ball.center.y : Int) - g.main_ball.radius > g.paddle_bottom.t_right.y
      ∨ (g.main_ball.center.y : Int) + g.main_ball.radius < g.paddle_bottom.b_left.y)
    (_hc : (g.main_ball.center.x : Int) + g.main_ball.vx ≤ g.paddle_bottom.t_right.x) :
    calc_ball_position F g md = some ⟨g, [Sem.signal_top_score], true⟩ := by
  apply calc_bottom_crossing_goal F g md h1 h2 h3 h4
  unfold meets_y
  omega

/-- The hypotheses of the amended C8 hold for a ball that crosses the bottom paddle's plane
to the right of the paddle. -/
theorem crossing_beside_paddle_is_goal_witness :
    ¬ right_wall g_beside_right ∧ ¬ left_wall g_beside_right
      ∧ ¬ bottom_overlap g_beside_right ∧ bottom_crossing g_beside_right
      ∧ (g_beside_right.main_ball.center.y : Int) - g_beside_right.main_ball.radius
          > g_beside_right.paddle_bottom.t_right.y
      ∧ (g_beside_right.main_ball.center.x : Int) + g_beside_right.main_ball.vx
          ≤ g_beside_right.paddle_bottom.t_right.x
      ∧ calc_ball_position ratOps g_beside_right 7
          = some ⟨g_beside_right, [Sem.signal_top_score], true⟩ :=
  ⟨by decide, by decide, by decide, by decide, by decide, by decide,
    crossing_beside_paddle_is_goal ratOps g_beside_right 7 (by decide) (by decide) (by decide)
      (by decide) (Or.inl (by decide)) (by decide)⟩

/-- C9 (the code departs from the claim). For the ball of `g_cross`, whose lower edge is at 35
above a paddle plane at 25 and which moves down by 15 in front of the paddle, the step takes
the bottom-paddle crossing bounce and shifts the ball by `cx - r - t_right.x + 1 = +11`: the
lower edge ends at 46, not at `t_right.x + 1 = 26`. -/
theorem bottom_crossing_moves_away_from_paddle (F : FloatOps) :
    ¬ right_wall g_cross ∧ ¬ left_wall g_cross
      ∧ ¬ bottom_overlap g_cross ∧ bottom_crossing g_cross
      ∧ meets_y g_cross g_cross.paddle_bottom
      ∧ (g_cross.paddle_bottom.t_right.x : Int) + 1 = 26
      ∧ ∃ out, calc_ball_position F g_cross 7 = some out
        ∧ (out.game.main_ball.center.x : Int) - out.game.main_ball.radius = 46 :=
  ⟨by decide, by decide, by decide, by decide, by decide, by decide,
    _, calc_bottom_crossing_bounce F g_cross 7 (by decide) (by decide) (by decide) (by decide)
      (by decide), by rfl⟩

/-- C10 (the code departs from the claim). For the ball of `g_top`, whose upper edge is at
295 past a paddle plane at 294 and which is in front of the top paddle, the step takes the
top-paddle overlap bounce and shifts the ball by `b_left.x - 2 * cx - r - 1 = -292`: the
centre's x wraps to 65534, so the upper edge is not at `b_left.x - 1 = 293`; `cy` is
unchanged. -/
theorem top_overlap_shift_is_off (F : FloatOps) :
    ¬ right_wall g_top ∧ ¬ left_wall g_top
      ∧ ¬ bottom_overlap g_top ∧ ¬ bottom_crossing g_top ∧ top_overlap g_top
      ∧ (g_top.main_ball.center.x : Int) + g_top.main_ball.vx ≤ g_top.paddle_top.b_left.x
      ∧ meets_y g_top g_top.paddle_top
      ∧ (g_top.paddle_top.b_left.x : Int) - 1 = 293
      ∧ ∃ out, calc_ball_position F g_top 7 = some out
        ∧ out.game.main_ball.center.x = 65534
        ∧ out.game.main_ball.center.y = g_top.main_ball.center.y :=
  ⟨by decide, by decide, by decide, by decide, by decide, by decide, by decide, by decide,
    _, calc_top_overlap_bounce F g_top 7 (by decide) (by decide) (by decide) (by decide)
      (by decide) (by decide) (by decide), by rfl, by rfl⟩

/-! ## Right-wall interpolation and tangent hits -/

/-- C11 (the code departs from the claim). For the ball of `g_right` (`cy + r = 227`,
`vy = 3`, `vx = 4`), inside the walls, the step takes the right-wall branch with the integer
quotient `(229 - 227) / 3 = 0` as scale factor: the centre's x stays at 100 instead of
advancing by `floor(8/3) = 2`. -/
theorem right_wall_x_does_not_advance (F : FloatOps) :
    inside_walls g_right ∧ right_wall g_right
      ∧ (g_right.main_ball.center.y : Int) + g_right.main_ball.radius = 227
      ∧ g_right.main_ball.vy = 3 ∧ g_right.main_ball.vx = 4
      ∧ ∃ out, calc_ball_position F g_right 7 = some out
        ∧ out.game.main_ball.center.x = g_right.main_ball.center.x
        ∧ out.game.main_ball.center.x = 100 :=
  ⟨by decide, by decide, by decide, rfl, rfl,
    _, calc_right_wall F g_right 7 (by decide) (by decide), by rfl, by rfl⟩

/-- C12. In a paddle-crossing branch, a ball exactly tangent in y to an edge of that paddle
(`cy - r = t_right.y` or `cy + r = b_left.y`, the paddle being a valid rectangle) bounces: the
step performs a paddle bounce, sends no signal and reports no goal. -/
theorem tangent_ball_bounces (F : FloatOps) (g : Game) (md : Nat)
    (h1 : ¬ right_wall g) (h2 : ¬ left_wall g) (h3 : ¬ bottom_overlap g)
    (hc : (bottom_crossing g ∧ g.paddle_bottom.valid
          ∧ ((g.main_ball.center.y : Int) - g.main_ball.radius = g.paddle_bottom.t_right.y
            ∨ (g.main_ball.center.y : Int) + g.main_ball.radius = g.paddle_bottom.b_left.y))
      ∨ (¬ bottom_crossing g ∧ ¬ top_overlap g ∧ top_crossing g ∧ g.paddle_top.valid
          ∧ ((g.main_ball.center.y : Int) - g.main_ball.radius = g.paddle_top.t_right.y
            ∨ (g.main_ball.center.y : Int) + g.main_ball.radius = g.paddle_top.b_left.y))) :
    ∃ out, calc_ball_position F g md = some out
      ∧ is_bounce F g out ∧ out.sent = [] ∧ out.goal_scored = false := by
  rcases hc with ⟨h4, ⟨-, hv⟩, ht⟩ | ⟨h4, h5, h6, ⟨-, hv⟩, ht⟩
  · have hy : meets_y g g.paddle_bottom := by
      unfold meets_y
      omega
    exact ⟨_, calc_bottom_crossing_bounce F g md h1 h2 h3 h4 hy,
      ⟨rfl, rfl, Or.inl rfl⟩, rfl, rfl⟩
  · have hy : meets_y g g.paddle_top := by
      unfold meets_y
      omega
    exact ⟨_, calc_top_crossing_bounce F g md h1 h2 h3 h4 h5 h6 hy,
      ⟨rfl, rfl, Or.inr rfl⟩, rfl, rfl⟩

/-- The hypotheses of C12 hold for a ball that crosses the bottom paddle's plane with its
left edge on the row of the paddle's right edge. -/
theorem tangent_ball_bounces_witness :
    ¬ right_wall g_tangent ∧ ¬ left_wall g_tangent ∧ ¬ bottom_overlap g_tangent
      ∧ bottom_crossing g_tangent ∧ g_tangent.paddle_bottom.valid
      ∧ (g_tangent.main_ball.center.y : Int) - g_tangent.main_ball.radius
          = g_tangent.paddle_bottom.t_right.y
      ∧ ∃ out, calc_ball_position ratOps g_tangent 7 = some out
        ∧ is_bounce ratOps g_tangent out ∧ out.sent = [] ∧ out.goal_scored = false :=
  ⟨by decide, by decide, by decide, by decide, by decide, by decide,
    tangent_ball_bounces ratOps g_tangent 7 (by decide) (by decide) (by decide)
      (Or.inl ⟨by decide, by decide, Or.inl (by decide)⟩)⟩

/-! ## The bounce angle -/

/-- The bounce angle in degrees is `80 - 65/26 * |d|`. -/
theorem bounce_angle_deg_eq (d : Int) :
    bounce_angle_deg d = 80 - (65 / 26) * ((d.natAbs : Nat) : ℚ) := by
  unfold bounce_angle_deg
  norm_num
  ring

/-- The clamped `bounce_position` has the magnitude of the clamped offset whenever the offset
is within `±230`. -/
theorem bounce_position_natAbs (g : Game) (paddle : Rect)
    (hd : -230 ≤ (g.main_ball.center.y : Int)
            - (((paddle.b_left.y + paddle.t_right.y) / 2 : Nat) : Int)
      ∧ (g.main_ball.center.y : Int)
            - (((paddle.b_left.y + paddle.t_right.y) / 2 : Nat) : Int) ≤ 230) :
    (bounce_position g paddle).natAbs
      = (max (-26) (min 26 ((g.main_ball.center.y : Int)
            - (((paddle.b_left.y + paddle.t_right.y) / 2 : Nat) : Int)))).natAbs := by
  simp only [bounce_position, toI8, PADDLE_WIDTH]
  split_ifs <;> omega

/-- C13. For every ball between the walls and every paddle on the display (rows up to 239),
with `d0 = cy - (b_left.y + t_right.y) / 2` and `d` the offset clamped to `[-26, 26]`, the
bounce angle in degrees is `80 - (65/26) * |d|`; it lies in `[15, 80]`, equals 80 at `d0 = 0`
and 15 whenever `|d0| ≥ 26`, and is strictly decreasing in `|d|`.  When the ball meets the
paddle's rows, the `int8_t` `bounce_position` is the clamped offset itself. -/
theorem bounce_angle_law (g : Game) (paddle : Rect) (hin : inside_walls g)
    (hp : paddle.b_left.y ≤ 239 ∧ paddle.t_right.y ≤ 239) :
    bounce_angle_deg (bounce_position g paddle)
        = 80 - (65 / 26) * (((max (-26) (min 26 ((g.main_ball.center.y : Int)
            - (((paddle.b_left.y + paddle.t_right.y) / 2 : Nat) : Int)))).natAbs : Nat) : ℚ)
      ∧ 15 ≤ bounce_angle_deg (bounce_position g paddle)
      ∧ bounce_angle_deg (bounce_position g paddle) ≤ 80
      ∧ ((g.main_ball.center.y : Int)
            - (((paddle.b_left.y + paddle.t_right.y) / 2 : Nat) : Int) = 0 →
          bounce_angle_deg (bounce_position g paddle) = 80)
      ∧ (26 ≤ ((g.main_ball.center.y : Int)
            - (((paddle.b_left.y + paddle.t_right.y) / 2 : Nat) : Int)).natAbs →
          bounce_angle_deg (bounce_position g paddle) = 15)
      ∧ (∀ d1 d2 : Int, d1.natAbs < d2.natAbs → bounce_angle_deg d2 < bounce_angle_deg d1)
      ∧ (meets_y g paddle →
          bounce_position g paddle = max (-26) (min 26 ((g.main_ball.center.y : Int)
            - (((paddle.b_left.y + paddle.t_right.y) / 2 : Nat) : Int)))) := by
  have hin2 := hin
  unfold inside_walls at hin2
  have hr : (0 : Int) ≤ g.main_ball.radius := Int.ofNat_nonneg _
  have hd : -230 ≤ (g.main_ball.center.y : Int)
            - (((paddle.b_left.y + paddle.t_right.y) / 2 : Nat) : Int)
      ∧ (g.main_ball.center.y : Int)
            - (((paddle.b_left.y + paddle.t_right.y) / 2 : Nat) : Int) ≤ 230 := by
    constructor <;> omega
  have hn := bounce_position_natAbs g paddle hd
  have hle : (bounce_position g paddle).natAbs ≤ 26 := by omega
  have hleq : (((bounce_position g paddle).natAbs : Nat) : ℚ) ≤ 26 := by exact_mod_cast hle
  have h0 : (0 : ℚ) ≤ (((bounce_position g paddle).natAbs : Nat) : ℚ) := Nat.cast_nonneg _
  refine ⟨?_, ?_, ?_, ?_, ?_, ?_, ?_⟩
  · rw [bounce_angle_deg_eq, hn]
  · rw [bounce_angle_deg_eq]
    linarith
  · rw [bounce_angle_deg_eq]
    linarith
  · intro hz
    have : (bounce_position g paddle).natAbs = 0 := by omega
    rw [bounce_angle_deg_eq, this]
    norm_num
  · intro hz
    have : (bounce_position g paddle).natAbs = 26 := by omega
    rw [bounce_angle_deg_eq, this]
    norm_num
  · intro d1 d2 hlt
    have hq : ((d1.natAbs : Nat) : ℚ) < ((d2.natAbs : Nat) : ℚ) := by exact_mod_cast hlt
    rw [bounce_angle_deg_eq, bounce_angle_deg_eq]
    linarith
  · intro hm
    unfold meets_y at hm
    simp only [bounce_position, toI8, PADDLE_WIDTH]
    split_ifs <;> omega

/-- The hypotheses of C13 hold for the ball of `g_tangent` and the bottom paddle: the ball is
31 rows from the paddle's midpoint, the clamped offset is 26 and the angle is 15 degrees. -/
theorem bounce_angle_law_witness :
    inside_walls g_tangent
      ∧ (g_tangent.paddle_bottom.b_left.y ≤ 239 ∧ g_tangent.paddle_bottom.t_right.y ≤ 239)
      ∧ meets_y g_tangent g_tangent.paddle_bottom
      ∧ bounce_position g_tangent g_tangent.paddle_bottom = 26
      ∧ bounce_angle_deg (bounce_position g_tangent g_tangent.paddle_bottom) = 15 :=
  ⟨by decide, by decide, by decide,
    ((bounce_angle_law g_tangent g_tangent.paddle_bottom (by decide) (by decide)).2.2.2.2.2.2
      (by decide)).trans (by decide),
    (bounce_angle_law g_tangent g_tangent.paddle_bottom (by decide) (by decide)).2.2.2.2.1
      (by decide)⟩

/-! ## Rectangle subtraction -/

/-- The pixels `draw_rect` paints are those of the inclusive ranges `b_left .. t_right`. -/
theorem mem_draw_rect (r : Rect) (x y : Nat) :
    (x, y) ∈ draw_rect r
      ↔ r.b_left.x ≤ x ∧ x ≤ r.t_right.x ∧ r.b_left.y ≤ y ∧ y ≤ r.t_right.y := by
  simp only [draw_rect, List.mem_flatMap, List.mem_map, List.mem_range'_1, Prod.mk.injEq]
  constructor
  · rintro ⟨i, hi, j, hj, rfl, rfl⟩
    omega
  · intro h
    exact ⟨x, by omega, y, by omega, rfl, rfl⟩

/-- C15 (the code departs from the claim). For the bottom paddle moved right by one joystick
step (rows 93..145 to rows 104..156), `subtract_rect_y` returns rows 93..104: its last row,
104, is the first row of the new rectangle, so the pixel `(15, 104)` is painted by both. -/
theorem subtract_rect_keeps_a_row_of_next :
    init_paddle_bottom = ⟨⟨15, 93⟩, ⟨25, 145⟩, 0⟩
      ∧ paddle_moved_right = ⟨⟨15, 104⟩, ⟨25, 156⟩, 0⟩
      ∧ subtract_rect_y init_paddle_bottom paddle_moved_right 0 = ⟨⟨15, 93⟩, ⟨25, 104⟩, 0⟩
      ∧ (15, 104) ∈ draw_rect paddle_moved_right
      ∧ (15, 104) ∈ draw_rect (subtract_rect_y init_paddle_bottom paddle_moved_right 0) := by
  refine ⟨by decide, by decide, by decide, ?_, ?_⟩
  · rw [mem_draw_rect]
    decide
  · rw [mem_draw_rect]
    decide

/-- C16. For a valid rectangle `old` and `next` equal to `old` shifted along y by `s ≠ 0`
(same x-extent, same size) with overlapping y-ranges, every pixel of `old` that is not a pixel
of `next` is a pixel of `subtract_rect_y old next c`, every pixel of the result is a pixel of
`old`, and the result's colour is `c`. -/
theorem subtract_rect_covers_stale (old next : Rect) (c : Nat) (s : Int) (hv : old.valid)
    (hx : next.b_left.x = old.b_left.x ∧ next.t_right.x = old.t_right.x)
    (_hs : s ≠ 0)
    (hsh : (next.b_left.y : Int) = old.b_left.y + s ∧ (next.t_right.y : Int) = old.t_right.y + s)
    (_hov : next.b_left.y ≤ old.t_right.y ∧ old.b_left.y ≤ next.t_right.y) :
    (∀ x y, (x, y) ∈ draw_rect old → (x, y) ∉ draw_rect next →
        (x, y) ∈ draw_rect (subtract_rect_y old next c))
      ∧ (∀ x y, (x, y) ∈ draw_rect (subtract_rect_y old next c) → (x, y) ∈ draw_rect old)
      ∧ (subtract_rect_y old next c).color = c := by
  obtain ⟨hvx, hvy⟩ := hv
  simp only [mem_draw_rect, subtract_rect_y, new_rect, new_point]
  split_ifs <;> refine ⟨?_, ?_, rfl⟩ <;> intro x y <;> simp only [] <;> omega

/-- The hypotheses of C16 hold for the bottom paddle and its position one joystick step to
the right. -/
theorem subtract_rect_covers_stale_witness :
    init_paddle_bottom.valid
      ∧ (paddle_moved_right.b_left.x = init_paddle_bottom.b_left.x
        ∧ paddle_moved_right.t_right.x = init_paddle_bottom.t_right.x)
      ∧ (11 : Int) ≠ 0
      ∧ ((paddle_moved_right.b_left.y : Int) = init_paddle_bottom.b_left.y + 11
        ∧ (paddle_moved_right.t_right.y : Int) = init_paddle_bottom.t_right.y + 11)
      ∧ (paddle_moved_right.b_left.y ≤ init_paddle_bottom.t_right.y
        ∧ init_paddle_bottom.b_left.y ≤ paddle_moved_right.t_right.y)
      ∧ (∀ x y, (x, y) ∈ draw_rect init_paddle_bottom → (x, y) ∉ draw_rect paddle_moved_right →
          (x, y) ∈ draw_rect (subtract_rect_y init_paddle_bottom paddle_moved_right 0))
      ∧ (∀ x y, (x, y) ∈ draw_rect (subtract_rect_y init_paddle_bottom paddle_moved_right 0) →
          (x, y) ∈ draw_rect init_paddle_bottom)
      ∧ (subtract_rect_y init_paddle_bottom paddle_moved_right 0).color = 0 :=
  ⟨by decide, by decide, by decide, by decide, by decide,
    subtract_rect_covers_stale init_paddle_bottom paddle_moved_right 0 11 (by decide)
      (by decide) (by decide) (by decide) (by decide)⟩

/-- C17. For valid rectangles `old` and `next` whose y-ranges do not overlap at all,
`subtract_rect_y old next c` has exactly `old`'s `b_left` and `t_right` and the colour `c`. -/
theorem subtract_rect_full_erase (old next : Rect) (c : Nat) (hvo : old.valid)
    (hvn : next.valid)
    (hno : next.b_left.y > old.t_right.y ∨ next.t_right.y < old.b_left.y) :
    subtract_rect_y old next c = { b_left := old.b_left, t_right := old.t_right, color := c } := by
  obtain ⟨-, hoy⟩ := hvo
  obtain ⟨-, hny⟩ := hvn
  simp only [subtract_rect_y]
  split_ifs <;> first | rfl | omega

/-- The hypotheses of C17 hold for the bottom paddle against the left border and its initial
position. -/
theorem subtract_rect_full_erase_witness :
    paddle_at_left.valid ∧ init_paddle_bottom.valid
      ∧ init_paddle_bottom.b_left.y > paddle_at_left.t_right.y
      ∧ subtract_rect_y paddle_at_left init_paddle_bottom 0
          = { b_left := paddle_at_left.b_left, t_right := paddle_at_left.t_right, color := 0 } :=
  ⟨by decide, by decide, by decide,
    subtract_rect_full_erase paddle_at_left init_paddle_bottom 0 (by decide) (by decide)
      (Or.inl (by decide))⟩

/-- C18 (as stated, refuted). For the bottom paddle and itself, `subtract_rect_y` returns the
paddle's whole extent in the clear colour: drawn, it paints the pixel `(15, 93)` and every
other pixel of the paddle, so the region is not empty. -/
theorem subtract_identical_counterexample :
    rect_is_pos_equal init_paddle_bottom init_paddle_bottom = true
      ∧ subtract_rect_y init_paddle_bottom init_paddle_bottom 0 = ⟨⟨15, 93⟩, ⟨25, 145⟩, 0⟩
      ∧ (15, 93) ∈ draw_rect (subtract_rect_y init_paddle_bottom init_paddle_bottom 0)
      ∧ draw_rect (subtract_rect_y init_paddle_bottom init_paddle_bottom 0) ≠ [] := by
  have hm : (15, 93) ∈ draw_rect (subtract_rect_y init_paddle_bottom init_paddle_bottom 0) := by
    rw [mem_draw_rect]
    decide
  exact ⟨by decide, by decide, hm, List.ne_nil_of_mem hm⟩

/-- C18 (amended). For every rectangle `r`, every `r'` in the same position
(`rect_is_pos_equal`) and every colour `c`, `subtract_rect_y r r' c` is `r`'s whole extent in
colour `c`: drawn, it paints exactly the pixels of `r`. -/
theorem subtract_identical_is_whole (r r' : Rect) (c : Nat)
    (he : rect_is_pos_equal r r' = true) :
    subtract_rect_y r r' c = { b_left := r.b_left, t_right := r.t_right, color := c }
      ∧ draw_rect (subtract_rect_y r r' c) = draw_rect r := by
  simp only [rect_is_pos_equal, point_is_equal, Bool.and_eq_true, beq_iff_eq] at he
  obtain ⟨⟨hbx, hby⟩, -, -⟩ := he
  have h : subtract_rect_y r r' c
      = { b_left := r.b_left, t_right := r.t_right, color := c } := by
    simp only [subtract_rect_y]
    split_ifs <;> first | rfl | omega
  exact ⟨h, by rw [h]; rfl⟩

/-- The hypothesis of the amended C18 holds for the bottom paddle and a copy of it in another
colour. -/
theorem subtract_identical_is_whole_witness :
    rect_is_pos_equal init_paddle_bottom { init_paddle_bottom with color := 31 } = true
      ∧ subtract_rect_y init_paddle_bottom { init_paddle_bottom with color := 31 } 0
          = { b_left := init_paddle_bottom.b_left, t_right := init_paddle_bottom.t_right,
              color := 0 }
      ∧ draw_rect (subtract_rect_y init_paddle_bottom
            { init_paddle_bottom with color := 31 } 0)
          = draw_rect init_paddle_bottom :=
  ⟨by decide,
    subtract_identical_is_whole init_paddle_bottom { init_paddle_bottom with color := 31 } 0
      (by decide)⟩

/-! ## The paddles stay between the borders -/

/-- C19. One joystick step of `tsk_paddle_bottom` keeps the bottom paddle between the
borders with its full width (`10 ≤ b_left.y`, `t_right.y ≤ 229`, `t_right.y - b_left.y = 52`)
and leaves both x-coordinates unchanged: codes 32/33 move it right by 11 or leave
`t_right.y = 229`, codes 8/9 move it left by 11 or leave `b_left.y = 10`, any other code
changes nothing.  The paddle of `init_objects` (`b_left.y = 93`, `t_right.y = 145`) is between
the borders. -/
theorem bottom_paddle_stays_between_borders (p : Rect) (pos : Nat) (hr : p.in_range)
    (hinv : paddle_between_borders p) :
    paddle_between_borders (tsk_paddle_bottom_move p pos)
      ∧ (tsk_paddle_bottom_move p pos).b_left.x = p.b_left.x
      ∧ (tsk_paddle_bottom_move p pos).t_right.x = p.t_right.x
      ∧ (pos = 32 ∨ pos = 33 →
          (tsk_paddle_bottom_move p pos).t_right.y = p.t_right.y + 11
            ∨ (tsk_paddle_bottom_move p pos).t_right.y = 229)
      ∧ (pos = 8 ∨ pos = 9 →
          (tsk_paddle_bottom_move p pos).b_left.y + 11 = p.b_left.y
            ∨ (tsk_paddle_bottom_move p pos).b_left.y = 10)
      ∧ (¬ (pos = 32 ∨ pos = 33) → ¬ (pos = 8 ∨ pos = 9) → tsk_paddle_bottom_move p pos = p)
      ∧ paddle_between_borders init_paddle_bottom
      ∧ init_paddle_bottom.b_left.y = 93 ∧ init_paddle_bottom.t_right.y = 145 := by
  obtain ⟨⟨hbx, -⟩, ⟨htx, -⟩⟩ := hr
  obtain ⟨h10, h229, hw⟩ := hinv
  have hne : ¬ (pos = 32 ∨ pos = 33) → ¬ (pos = 8 ∨ pos = 9) →
      tsk_paddle_bottom_move p pos = p := by
    intro hn1 hn2
    simp only [tsk_paddle_bottom_move, if_neg hn1, if_neg hn2]
  refine ⟨?_, ?_, ?_, ?_, ?_, hne, by decide, by decide, by decide⟩ <;>
    simp only [tsk_paddle_bottom_move, paddle_between_borders, BORDER_WIDTH, JOYSTICK_STEP,
      PADDLE_WIDTH, Nat.cast_ofNat] at * <;>
    split_ifs <;>
    (try simp only [shift_rect_y, shift_point, toU16, toI16]) <;>
    omega

/-- The hypotheses of C19 hold for the paddle of `init_objects` and the joystick code 32. -/
theorem bottom_paddle_stays_between_borders_witness :
    init_paddle_bottom.in_range ∧ paddle_between_borders init_paddle_bottom
      ∧ paddle_between_borders (tsk_paddle_bottom_move init_paddle_bottom 32)
      ∧ (tsk_paddle_bottom_move init_paddle_bottom 32).b_left.x = init_paddle_bottom.b_left.x
      ∧ (tsk_paddle_bottom_move init_paddle_bottom 32).t_right.x
          = init_paddle_bottom.t_right.x :=
  ⟨by decide, by decide,
    (bottom_paddle_stays_between_borders init_paddle_bottom 32 (by decide) (by decide)).1,
    (bottom_paddle_stays_between_borders init_paddle_bottom 32 (by decide) (by decide)).2.1,
    (bottom_paddle_stays_between_borders init_paddle_bottom 32 (by decide) (by decide)).2.2.1⟩

/-- The row of the upper clamp value 4000 is the border row 10. -/
theorem pot_to_row_4000 : pot_to_row 4000 = 10 := by
  have h : ⌈(-1 * (b_left_range : ℚ) / (pot_range : ℚ)) * ((4000 : Nat) : ℚ) + (BORDER_WIDTH : ℚ)
      + (1 * (pot_max : ℚ) * (b_left_range : ℚ) / (pot_range : ℚ))⌉ = 10 := by
    rw [Int.ceil_eq_iff]
    norm_num
  unfold pot_to_row
  rw [h]
  decide

/-- The row of the unclamped reading 4030 is 9. -/
theorem pot_to_row_4030 : pot_to_row 4030 = 9 := by
  have h : ⌈(-1 * (b_left_range : ℚ) / (pot_range : ℚ)) * ((4030 : Nat) : ℚ) + (BORDER_WIDTH : ℚ)
      + (1 * (pot_max : ℚ) * (b_left_range : ℚ) / (pot_range : ℚ))⌉ = 9 := by
    rw [Int.ceil_eq_iff]
    norm_num
  unfold pot_to_row
  rw [h]
  decide

/-- The upper end of the hysteresis zone of row 9. -/
theorem step_edge_9_upper : ⌈step_edge 9 + (hysteresis_size : ℚ)⌉ = 4033 := by
  rw [Int.ceil_eq_iff]
  unfold step_edge
  norm_num

/-- The lower end of the hysteresis zone of row 9. -/
theorem step_edge_9_lower : ⌊step_edge 9 - step_size - (hysteresis_size : ℚ)⌋ = 3989 := by
  rw [Int.floor_eq_iff]
  unfold step_edge step_size
  norm_num

/-- With the old row 9, a reading of 4030 is clamped to 4000, maps to row 10 and is pulled
back to row 9 by the hysteresis. -/
theorem tsk_paddle_top_row_9_4030 : tsk_paddle_top_row 9 4030 = 9 := by
  unfold tsk_paddle_top_row
  simp only [show (4030 : Nat) > pot_max from by decide, if_true, pot_to_row_4000,
    step_edge_9_upper, step_edge_9_lower]
  norm_num

/-- A clamped potentiometer value maps to a row between 10 and 177. -/
theorem pot_to_row_clamped (p : Nat) (h0 : pot_min ≤ p) (h1 : p ≤ pot_max) :
    10 ≤ pot_to_row p ∧ pot_to_row p ≤ 177 := by
  have hp0 : (100 : ℚ) ≤ (p : ℚ) := by exact_mod_cast h0
  have hp1 : (p : ℚ) ≤ 4000 := by exact_mod_cast h1
  have hlo : (10 : Int) ≤ ⌈(-1 * (b_left_range : ℚ) / (pot_range : ℚ)) * (p : ℚ)
      + (BORDER_WIDTH : ℚ) + (1 * (pot_max : ℚ) * (b_left_range : ℚ) / (pot_range : ℚ))⌉ := by
    rw [Int.le_ceil_iff]
    norm_num
    linarith
  have hhi : ⌈(-1 * (b_left_range : ℚ) / (pot_range : ℚ)) * (p : ℚ)
      + (BORDER_WIDTH : ℚ) + (1 * (pot_max : ℚ) * (b_left_range : ℚ) / (pot_range : ℚ))⌉
      ≤ (177 : Int) := by
    rw [Int.ceil_le]
    norm_num
    linarith
  unfold pot_to_row toU16
  omega

/-- From an old row between 10 and 177, one loop iteration of `tsk_paddle_top` yields a row
between 10 and 177 for every reading. -/
theorem tsk_paddle_top_row_in_range (old reading : Nat) (h0 : 10 ≤ old) (h1 : old ≤ 177) :
    10 ≤ tsk_paddle_top_row old reading ∧ tsk_paddle_top_row old reading ≤ 177 := by
  have hc : ∀ p : Nat, pot_min ≤ p → p ≤ pot_max →
      10 ≤ pot_to_row p ∧ pot_to_row p ≤ 177 := pot_to_row_clamped
  have hmax := hc pot_max (by decide) (by decide)
  have hmin := hc pot_min (by decide) (by decide)
  unfold tsk_paddle_top_row
  simp only []
  split_ifs <;> first
    | exact ⟨h0, h1⟩
    | exact hmax
    | exact hmin
    | exact hc reading (by omega) (by omega)

/-- C20 (the code departs from the claim). The initial reading is mapped to a row without
clamping: 4030 gives `bottom_left_y_old = 9`.  In the loop the reading 4030 is clamped to
4000 and maps to row 10, one row from the old one, and the hysteresis keeps the old row: after
the first iteration, and after every further one with the same reading, `b_left.y = 9`, inside
the left border. -/
theorem top_paddle_enters_left_border :
    pot_to_row 4030 = 9
      ∧ tsk_paddle_top_run 4030 [4030] = 9
      ∧ tsk_paddle_top_run 4030 [4030, 4030] = 9
      ∧ (paddle_top_at (init_game 5).paddle_top (tsk_paddle_top_run 4030 [4030])).b_left.y = 9
      ∧ ¬ (10 ≤ tsk_paddle_top_run 4030 [4030]) := by
  have h1 : tsk_paddle_top_run 4030 [4030] = 9 := by
    simp only [tsk_paddle_top_run, List.foldl, pot_to_row_4030, tsk_paddle_top_row_9_4030]
  have h2 : tsk_paddle_top_run 4030 [4030, 4030] = 9 := by
    simp only [tsk_paddle_top_run, List.foldl, pot_to_row_4030, tsk_paddle_top_row_9_4030]
  refine ⟨pot_to_row_4030, h1, h2, ?_, ?_⟩
  · rw [h1]
    rfl
  · rw [h1]
    decide

/-! ## Scoring -/

/-- C21. One wake-up of a scoring task increments that side's score by exactly one (scores
below the `uint16_t` maximum), leaves the other side's score unchanged, sends
`signal_game_over` if and only if the incremented score equals `MAX_SCORE`, and ends by
sending `score_update_ready`, which it sends exactly once. -/
theorem scoring_step (g : Game) (ht : g.top_score < 65535) (hb : g.bottom_score < 65535) :
    ((tsk_top_score g).1.top_score = g.top_score + 1
        ∧ (tsk_top_score g).1.bottom_score = g.bottom_score
        ∧ (Sem.signal_game_over ∈ (tsk_top_score g).2 ↔ g.top_score + 1 = MAX_SCORE)
        ∧ (tsk_top_score g).2.getLast? = some Sem.score_update_ready
        ∧ (tsk_top_score g).2.count Sem.score_update_ready = 1)
      ∧ ((tsk_bottom_score g).1.bottom_score = g.bottom_score + 1
        ∧ (tsk_bottom_score g).1.top_score = g.top_score
        ∧ (Sem.signal_game_over ∈ (tsk_bottom_score g).2 ↔ g.bottom_score + 1 = MAX_SCORE)
        ∧ (tsk_bottom_score g).2.getLast? = some Sem.score_update_ready
        ∧ (tsk_bottom_score g).2.count Sem.score_update_ready = 1) := by
  have e1 : toU16 ((g.top_score : Int) + 1) = g.top_score + 1 := by
    unfold toU16
    omega
  have e2 : toU16 ((g.bottom_score : Int) + 1) = g.bottom_score + 1 := by
    unfold toU16
    omega
  constructor
  · simp only [tsk_top_score, reset_ball, e1]
    refine ⟨trivial, trivial, ?_, ?_, ?_⟩ <;> split_ifs with h <;> simp [h]
  · simp only [tsk_bottom_score, reset_ball, e2]
    refine ⟨trivial, trivial, ?_, ?_, ?_⟩ <;> split_ifs with h <;> simp [h]

/-- The hypotheses of C21 hold for a game in which the bottom side has six points: its
seventh sends `signal_game_over`. -/
theorem scoring_step_witness :
    g_six.top_score < 65535 ∧ g_six.bottom_score < 65535
      ∧ (tsk_bottom_score g_six).1.bottom_score = 7
      ∧ (tsk_bottom_score g_six).2 = [Sem.signal_game_over, Sem.score_update_ready]
      ∧ (tsk_bottom_score g_six).1.bottom_score = g_six.bottom_score + 1
      ∧ (tsk_bottom_score g_six).1.top_score = g_six.top_score
      ∧ (Sem.signal_game_over ∈ (tsk_bottom_score g_six).2 ↔ g_six.bottom_score + 1 = MAX_SCORE)
      ∧ (tsk_bottom_score g_six).2.getLast? = some Sem.score_update_ready
      ∧ (tsk_bottom_score g_six).2.count Sem.score_update_ready = 1 :=
  ⟨by decide, by decide, by decide, by decide,
    (scoring_step g_six (by decide) (by decide)).2⟩

/-- C22 (as stated, refuted). After `tsk_top_score` (the bottom side conceded) the ball at the
centre, x = 159, has `vx = +4`: it moves toward increasing x, away from the bottom paddle
(x ≤ 25) and toward the top paddle (x ≥ 294).  After `tsk_bottom_score` it has `vx = -4`. -/
theorem serve_direction_counterexample :
    (tsk_top_score (init_game 5)).1.main_ball.center.x = 159
      ∧ (tsk_top_score (init_game 5)).1.paddle_bottom.t_right.x = 25
      ∧ (tsk_top_score (init_game 5)).1.paddle_top.b_left.x = 294
      ∧ (tsk_top_score (init_game 5)).1.main_ball.vx = 4
      ∧ ¬ ((tsk_top_score (init_game 5)).1.main_ball.vx < 0)
      ∧ (tsk_bottom_score (init_game 5)).1.main_ball.vx = -4
      ∧ ¬ ((tsk_bottom_score (init_game 5)).1.main_ball.vx > 0) := by
  decide

/-- C22 (amended). After a scoring task has processed a goal the ball's centre is
`(159, 119)`, `ball_speed` is `SPEED_ARRAY[0] = 7`, and the velocity is `(4, 3)` after
`tsk_top_score` (increasing x, toward the top paddle) and `(-4, 3)` after `tsk_bottom_score`
(decreasing x, toward the bottom paddle): the serve goes toward the side that scored. -/
theorem serve_after_goal (g : Game) :
    ((tsk_top_score g).1.main_ball.center = new_point 159 119
        ∧ (tsk_top_score g).1.ball_speed = 7
        ∧ (tsk_top_score g).1.main_ball.vx = 4 ∧ (tsk_top_score g).1.main_ball.vy = 3)
      ∧ ((tsk_bottom_score g).1.main_ball.center = new_point 159 119
        ∧ (tsk_bottom_score g).1.ball_speed = 7
        ∧ (tsk_bottom_score g).1.main_ball.vx = -4
        ∧ (tsk_bottom_score g).1.main_ball.vy = 3) := by
  refine ⟨⟨rfl, rfl, rfl, rfl⟩, ⟨rfl, rfl, rfl, rfl⟩⟩

/-! ## The score LEDs -/

/-- For a position below 32, `is_bit_on` reads the bit of that position. -/
theorem is_bit_on_eq_testBit (num pos : Nat) (h : pos < 32) :
    is_bit_on num pos = num.testBit pos := by
  have hp : (2 : Nat) ^ pos < 4294967296 := by
    have : (2 : Nat) ^ pos < 2 ^ 32 := Nat.pow_lt_pow_right (by decide) h
    simpa using this
  unfold is_bit_on toU32
  rw [Nat.one_shiftLeft, Nat.mod_eq_of_lt hp]
  cases hb : num.testBit pos
  · have hz : num &&& 2 ^ pos = 0 := by
      apply Nat.eq_of_testBit_eq
      intro i
      rw [Nat.testBit_and, Nat.testBit_two_pow, Nat.zero_testBit]
      by_cases hi : pos = i
      · subst hi
        simp [hb]
      · simp [hi]
    simp [hz]
  · have hne : num &&& 2 ^ pos ≠ 0 := by
      intro hz
      have := Nat.testBit_and num (2 ^ pos) pos
      rw [hz, Nat.zero_testBit, hb, Nat.testBit_two_pow_self] at this
      simp at this
    simp [hne]

/-- The bits of the LED word, as a Boolean equation. -/
theorem display_score_testBit (l r k : Nat) :
    (display_score l r).testBit k
      = ((decide (28 = k) && l.testBit 0) || (decide (29 = k) && l.testBit 1)
        || (decide (31 = k) && l.testBit 2) || (decide (6 = k) && r.testBit 0)
        || (decide (5 = k) && r.testBit 1) || (decide (4 = k) && r.testBit 2)) := by
  have hr : List.range 3 = [0, 1, 2] := by decide
  have e28 : toU32 (1 <<< 28) = 2 ^ 28 := by decide
  have e29 : toU32 (1 <<< 29) = 2 ^ 29 := by decide
  have e31 : toU32 (1 <<< 31) = 2 ^ 31 := by decide
  have e6 : toU32 (1 <<< 6) = 2 ^ 6 := by decide
  have e5 : toU32 (1 <<< 5) = 2 ^ 5 := by decide
  have e4 : toU32 (1 <<< 4) = 2 ^ 4 := by decide
  simp only [display_score, hr, List.foldl, left_led, right_led, e28, e29, e31, e6, e5, e4,
    is_bit_on_eq_testBit l 0 (by decide), is_bit_on_eq_testBit l 1 (by decide),
    is_bit_on_eq_testBit l 2 (by decide), is_bit_on_eq_testBit r 0 (by decide),
    is_bit_on_eq_testBit r 1 (by decide), is_bit_on_eq_testBit r 2 (by decide)]
  cases l.testBit 0 <;> cases l.testBit 1 <;> cases l.testBit 2 <;>
    cases r.testBit 0 <;> cases r.testBit 1 <;> cases r.testBit 2 <;>
    simp only [↓reduceIte, Bool.false_eq_true, Nat.testBit_or, Nat.testBit_two_pow,
      Nat.zero_testBit, Bool.false_or, Bool.or_false, Bool.and_true, Bool.and_false,
      Bool.or_assoc, Bool.or_comm, Bool.or_left_comm]

/-- A score of at most 7 is determined by its three low bits. -/
theorem eq_of_low_bits (a b : Nat) (ha : a ≤ 7) (hb : b ≤ 7)
    (h0 : a.testBit 0 = b.testBit 0) (h1 : a.testBit 1 = b.testBit 1)
    (h2 : a.testBit 2 = b.testBit 2) : a = b := by
  interval_cases a <;> interval_cases b <;> first | rfl | (exfalso; revert h0 h1 h2; decide)

/-- C23. `is_bit_on num pos` is true exactly when bit `pos < 32` of `num` is 1.  In the LED
word built by `display_score`, bits 28, 29, 31 are set exactly when bits 0, 1, 2 of
`score_left` are 1, bits 6, 5, 4 exactly when bits 0, 1, 2 of `score_right` are 1, and no
other bit is set; for scores in `0..MAX_SCORE` distinct score pairs give distinct LED
words. -/
theorem display_score_bits (l r : Nat) :
    (∀ num pos : Nat, pos < 32 → (is_bit_on num pos = true ↔ num.testBit pos = true))
      ∧ (∀ k : Nat, (display_score l r).testBit k = true
          ↔ (k = 28 ∧ l.testBit 0 = true) ∨ (k = 29 ∧ l.testBit 1 = true)
            ∨ (k = 31 ∧ l.testBit 2 = true) ∨ (k = 6 ∧ r.testBit 0 = true)
            ∨ (k = 5 ∧ r.testBit 1 = true) ∨ (k = 4 ∧ r.testBit 2 = true))
      ∧ (∀ l2 r2 : Nat, l ≤ MAX_SCORE → r ≤ MAX_SCORE → l2 ≤ MAX_SCORE → r2 ≤ MAX_SCORE →
          display_score l r = display_score l2 r2 → l = l2 ∧ r = r2) := by
  refine ⟨?_, ?_, ?_⟩
  · intro num pos hpos
    rw [is_bit_on_eq_testBit num pos hpos]
  · intro k
    rw [display_score_testBit]
    simp only [Bool.or_eq_true, Bool.and_eq_true, decide_eq_true_eq]
    constructor
    · rintro (((((h | h) | h) | h) | h) | h) <;> simp [h.1.symm, h.2]
    · rintro (h | h | h | h | h | h) <;> simp [h.1, h.2]
  · intro l2 r2 hl hr hl2 hr2 he
    have hk : ∀ k, (display_score l r).testBit k = (display_score l2 r2).testBit k := by
      intro k
      rw [he]
    have k28 := hk 28
    have k29 := hk 29
    have k31 := hk 31
    have k6 := hk 6
    have k5 := hk 5
    have k4 := hk 4
    simp [display_score_testBit, -Nat.testBit_zero] at k28 k29 k31 k6 k5 k4
    exact ⟨eq_of_low_bits l l2 hl hl2 k28 k29 k31, eq_of_low_bits r r2 hr hr2 k6 k5 k4⟩

/-! ## Division safety and the playfield invariant -/

/-- C24. Inside the walls the right-wall branch divides by `vy > 0` and the left-wall branch
by `vy < 0`; for every ball state the bottom-paddle crossing branch divides by `vx < 0` and the
top-paddle crossing branch by `vx > 0`.  Hence inside the walls the step always produces a
result, and for every state the only division by zero is a wall branch with `vy = 0`, which
needs a ball outside the walls. -/
theorem division_safety (F : FloatOps) (g : Game) (md : Nat) :
    (inside_walls g → right_wall g → 0 < g.main_ball.vy)
      ∧ (inside_walls g → left_wall g → g.main_ball.vy < 0)
      ∧ (¬ bottom_overlap g → bottom_crossing g → g.main_ball.vx < 0)
      ∧ (¬ top_overlap g → top_crossing g → 0 < g.main_ball.vx)
      ∧ (inside_walls g → ∃ out, calc_ball_position F g md = some out)
      ∧ (calc_ball_position F g md = none →
          (right_wall g ∨ left_wall g) ∧ g.main_ball.vy = 0 ∧ ¬ inside_walls g) := by
  have hdef : inside_walls g → ∃ out, calc_ball_position F g md = some out := by
    intro hin
    apply calc_defined
    unfold inside_walls at hin
    unfold right_wall left_wall
    omega
  refine ⟨?_, ?_, ?_, ?_, hdef, ?_⟩
  · unfold inside_walls right_wall
    omega
  · unfold inside_walls left_wall
    omega
  · unfold bottom_overlap bottom_crossing
    omega
  · unfold top_overlap top_crossing
    omega
  · intro hnone
    have hnd : ¬ (g.main_ball.vy ≠ 0 ∨ (¬ right_wall g ∧ ¬ left_wall g)) := by
      intro hd
      obtain ⟨out, ho⟩ := calc_defined F g md hd
      rw [hnone] at ho
      exact absurd ho (by simp)
    have hin : ¬ inside_walls g := by
      intro hin
      obtain ⟨out, ho⟩ := hdef hin
      rw [hnone] at ho
      exact absurd ho (by simp)
    refine ⟨?_, ?_, hin⟩
    · by_contra hw
      exact hnd (Or.inr ⟨fun h => hw (Or.inl h), fun h => hw (Or.inr h)⟩)
    · by_contra hv
      exact hnd (Or.inl hv)

/-- Inside the walls a right-wall step, a bottom-paddle crossing bounce and a top-paddle
crossing bounce divide by `3`, `-15` and `7`; outside the walls a ball with `vy = 0` makes the
right-wall branch divide by zero. -/
theorem division_safety_witness :
    (inside_walls g_right ∧ right_wall g_right ∧ 0 < g_right.main_ball.vy)
      ∧ (¬ bottom_overlap g_cross ∧ bottom_crossing g_cross ∧ g_cross.main_ball.vx < 0)
      ∧ (¬ top_overlap g_top_cross ∧ top_crossing g_top_cross ∧ 0 < g_top_cross.main_ball.vx)
      ∧ (¬ inside_walls g_outside ∧ right_wall g_outside
        ∧ calc_ball_position ratOps g_outside 7 = none) :=
  ⟨⟨by decide, by decide, (division_safety ratOps g_right 7).1 (by decide) (by decide)⟩,
    ⟨by decide, by decide, (division_safety ratOps g_cross 7).2.2.1 (by decide) (by decide)⟩,
    ⟨by decide, by decide,
      (division_safety ratOps g_top_cross 7).2.2.2.1 (by decide) (by decide)⟩,
    ⟨by decide, by decide, by decide⟩⟩

/-- The exact floor of `(-n/d) * v` lies between `0` and `v` when `0 < n ≤ -d`. -/
theorem scale_floor_between (n d v : Int) (hn : 0 < n) (hnd : n ≤ -d) :
    (0 ≤ v → 0 ≤ ⌊(-1 * (n : ℚ) / (d : ℚ)) * (v : ℚ)⌋ ∧ ⌊(-1 * (n : ℚ) / (d : ℚ)) * (v : ℚ)⌋ ≤ v)
      ∧ (v ≤ 0 →
          v ≤ ⌊(-1 * (n : ℚ) / (d : ℚ)) * (v : ℚ)⌋ ∧ ⌊(-1 * (n : ℚ) / (d : ℚ)) * (v : ℚ)⌋ ≤ 0) := by
  have hd : (d : ℚ) < 0 := by
    have : d < 0 := by omega
    exact_mod_cast this
  have hnq : (0 : ℚ) < (n : ℚ) := by exact_mod_cast hn
  have hndq : (n : ℚ) ≤ -(d : ℚ) := by exact_mod_cast hnd
  have e : -1 * (n : ℚ) / (d : ℚ) = (n : ℚ) / (-(d : ℚ)) := by
    rw [div_neg, neg_one_mul, neg_div]
  have ht0 : 0 < -1 * (n : ℚ) / (d : ℚ) := by
    rw [e]
    exact div_pos hnq (by linarith)
  have ht1 : -1 * (n : ℚ) / (d : ℚ) ≤ 1 := by
    rw [e]
    exact (div_le_one (by linarith)).mpr hndq
  constructor
  · intro hv
    have hvq : (0 : ℚ) ≤ (v : ℚ) := by exact_mod_cast hv
    constructor
    · exact Int.floor_nonneg.mpr (mul_nonneg ht0.le hvq)
    · have : ⌊(-1 * (n : ℚ) / (d : ℚ)) * (v : ℚ)⌋ < v + 1 := by
        rw [Int.floor_lt]
        push_cast
        nlinarith
      omega
  · intro hv
    have hvq : (v : ℚ) ≤ 0 := by exact_mod_cast hv
    constructor
    · rw [Int.le_floor]
      nlinarith
    · have : ⌊(-1 * (n : ℚ) / (d : ℚ)) * (v : ℚ)⌋ < 0 + 1 := by
        rw [Int.floor_lt]
        push_cast
        nlinarith
      omega

/-- The integer quotient `m / d` of C is `0` or `1` when `0 < m ≤ d`. -/
theorem tdiv_zero_or_one (m d : Int) (hm : 0 < m) (hmd : m ≤ d) :
    Int.tdiv m d = 0 ∨ Int.tdiv m d = 1 := by
  rw [Int.tdiv_eq_ediv hm.le (by omega)]
  rcases lt_or_eq_of_le hmd with h | h
  · exact Or.inl (Int.ediv_eq_zero_of_lt hm.le h)
  · right
    rw [← h]
    exact Int.ediv_self (by omega)

set_option maxHeartbeats 1600000 in
/-- C25. For every ball inside the walls (`10 ≤ cy - r`, `cy + r ≤ 229`) with
`r + |vy| ≤ 110` and every paddle pair, with the floating-point scale factors taken exactly,
the step produces a result and the ball is again inside the walls, whichever branch is
taken. -/
theorem ball_stays_inside_walls (F : FloatOps) (g : Game) (md : Nat) (hF : F.scale_exact)
    (hin : inside_walls g)
    (hr : (g.main_ball.radius : Int) + |g.main_ball.vy| ≤ 110) :
    ∃ out, calc_ball_position F g md = some out ∧ inside_walls out.game := by
  unfold inside_walls at hin
  have habs : g.main_ball.vy ≤ |g.main_ball.vy| ∧ -g.main_ball.vy ≤ |g.main_ball.vy| :=
    ⟨le_abs_self _, neg_le_abs _⟩
  have hd : g.main_ball.vy ≠ 0 ∨ (¬ right_wall g ∧ ¬ left_wall g) := by
    unfold right_wall left_wall
    omega
  obtain ⟨out, h⟩ := calc_defined F g md hd
  refine ⟨out, h, ?_⟩
  -- the y shift of the bottom-paddle crossing bounce
  have hsf : ¬ ((g.main_ball.center.x : Int) - g.main_ball.radius
          > g.paddle_bottom.t_right.x
        ∧ (g.main_ball.center.x : Int) - g.main_ball.radius + g.main_ball.vx
          ≤ g.paddle_bottom.t_right.x)
      ∨ ((0 ≤ g.main_ball.vy →
            0 ≤ F.scale_floor ((g.main_ball.center.x : Int) - g.main_ball.radius
                - g.paddle_bottom.t_right.x) g.main_ball.vx g.main_ball.vy
            ∧ F.scale_floor ((g.main_ball.center.x : Int) - g.main_ball.radius
                - g.paddle_bottom.t_right.x) g.main_ball.vx g.main_ball.vy ≤ g.main_ball.vy)
        ∧ (g.main_ball.vy ≤ 0 →
            g.main_ball.vy ≤ F.scale_floor ((g.main_ball.center.x : Int) - g.main_ball.radius
                - g.paddle_bottom.t_right.x) g.main_ball.vx g.main_ball.vy
            ∧ F.scale_floor ((g.main_ball.center.x : Int) - g.main_ball.radius
                - g.paddle_bottom.t_right.x) g.main_ball.vx g.main_ball.vy ≤ 0)) := by
    by_cases hc : (g.main_ball.center.x : Int) - g.main_ball.radius
          > g.paddle_bottom.t_right.x
        ∧ (g.main_ball.center.x : Int) - g.main_ball.radius + g.main_ball.vx
          ≤ g.paddle_bottom.t_right.x
    · right
      rw [hF]
      exact scale_floor_between _ _ _ (by omega) (by omega)
    · exact Or.inl hc
  -- the y shift of the top-paddle crossing bounce
  have htd : ¬ ((g.main_ball.center.x : Int) + g.main_ball.radius < g.paddle_top.b_left.x
        ∧ (g.main_ball.center.x : Int) + g.main_ball.radius + g.main_ball.vx
          ≥ g.paddle_top.b_left.x)
      ∨ (Int.tdiv ((g.paddle_top.b_left.x : Int)
            - ((g.main_ball.center.x : Int) + g.main_ball.radius)) g.main_ball.vx
            * g.main_ball.vy = 0
        ∨ Int.tdiv ((g.paddle_top.b_left.x : Int)
            - ((g.main_ball.center.x : Int) + g.main_ball.radius)) g.main_ball.vx
            * g.main_ball.vy = g.main_ball.vy) := by
    by_cases hc : (g.main_ball.center.x : Int) + g.main_ball.radius < g.paddle_top.b_left.x
        ∧ (g.main_ball.center.x : Int) + g.main_ball.radius + g.main_ball.vx
          ≥ g.paddle_top.b_left.x
    · right
      rcases tdiv_zero_or_one ((g.paddle_top.b_left.x : Int)
          - ((g.main_ball.center.x : Int) + g.main_ball.radius)) g.main_ball.vx
          (by omega) (by omega) with h0 | h1
      · left
        rw [h0, zero_mul]
      · right
        rw [h1, one_mul]
    · exact Or.inl hc
  simp only [calc_ball_position, BORDER_WIDTH, Nat.cast_ofNat] at h
  split_ifs at h <;>
    simp only [Option.some.injEq, reduceCtorEq] at h <;>
    subst h <;>
    simp only [inside_walls, paddle_collision, set_ball_velocity, shift_ball, shift_point,
      toU16, toI16] <;>
    first
      | (clear hsf htd; omega)
      | (clear htd; omega)
      | (clear hsf; omega)

/-- The hypotheses of C25 hold, with the exact scale factors of `ratOps`, for a ball that
crosses the bottom paddle's plane in front of the paddle. -/
theorem ball_stays_inside_walls_witness :
    ratOps.scale_exact ∧ inside_walls g_cross
      ∧ (g_cross.main_ball.radius : Int) + |g_cross.main_ball.vy| ≤ 110
      ∧ ∃ out, calc_ball_position ratOps g_cross 7 = some out ∧ inside_walls out.game :=
  ⟨fun _ _ _ => rfl, by decide, by decide,
    ball_stays_inside_walls ratOps g_cross 7 (fun _ _ _ => rfl) (by decide) (by decide)⟩

end PaddleBall
